import Mathlib

/-!
Verification of the Sem-6 fitness-chatbot core: the safety validator
(`core/safety_validator.py`), the rule-based food recommendation engine
(`model_3_build/model3_food_recommender.py`), the roadmap post-processing
(`core/roadmap_generator.py`) and the conversation state machine
(`core/conversation_manager.py`).

Modelling conventions:
* Python floats are modelled as exact rationals (ℚ).  `round(x, n)` is
  modelled by `pyRound` (round half to even, Python's rounding mode) and
  `int(x)` by `pyInt` (truncation toward zero).
* Python strings are modelled as Lean `String`s; the lexical helpers
  (strip, lower, substring test) are written over `List Char`.
* The engine's food catalog (`foods_by_category`) is a structure holding
  the five category lists the code reads.  Python's in-place `list.sort`
  is modelled by threading the catalog through the functions
  (`... → Catalog → result × Catalog`), since `_filter_by_restrictions`
  returns the catalog's own list when there are no restrictions, so the
  subsequent sort reorders the stored category list itself.
* Python's stable `list.sort(key=…, reverse=True)` is modelled by a
  stable insertion sort `sortByDesc` (a stable sort in descending key
  order is unique, so this agrees with Timsort).
* Presentation-only string fields (`suggested_sentence`,
  `chatbot_message`, the formatted `macro_accuracy` percent string) are
  omitted; validator messages are modelled as structured values.
* The external Random-Forest model of `roadmap_generator.py` is out of
  scope; its three raw predictions enter `roadmapPredict` as parameters
  and only the in-repository post-processing is modelled.
-/

/-! ## Rational helpers: Python `round` and `int` -/

/-- Round a rational to the nearest integer, ties to even
(Python's rounding mode). -/
def roundHalfEven (q : ℚ) : ℤ :=
  let n : ℤ := ⌊q⌋
  let r : ℚ := q - n
  if r < 1/2 then n
  else if 1/2 < r then n + 1
  else if n % 2 = 0 then n else n + 1

/-- Model of Python `round(q, d)`. -/
def pyRound (q : ℚ) (d : ℕ) : ℚ :=
  ((roundHalfEven (q * 10 ^ d) : ℚ)) / 10 ^ d

/-- Model of Python `int(q)`: truncation toward zero. -/
def pyInt (q : ℚ) : ℤ :=
  if 0 ≤ q then ⌊q⌋ else ⌈q⌉

/-- Values that are integer multiples of `10^-d`. -/
def IsMult (d : ℕ) (q : ℚ) : Prop := ∃ k : ℤ, q = (k : ℚ) / 10 ^ d

/-! ## String helpers: Python `strip`, `lower`, substring (`in`) tests -/

/-- Characters stripped by Python `str.strip()`. -/
def pyIsSpace (c : Char) : Bool :=
  c = ' ' || c = '\t' || c = '\n' || c = '\r' || c = '\x0b' || c = '\x0c'

/-- Model of Python `s.strip()` over the character list. -/
def pyStripList (l : List Char) : List Char :=
  ((l.dropWhile pyIsSpace).reverse.dropWhile pyIsSpace).reverse

/-- Model of Python `s.strip().lower()` (equivalently `s.lower().strip()`,
since lowercasing fixes whitespace characters). -/
def pyStripLower (s : String) : String :=
  String.mk ((pyStripList s.data).map Char.toLower)

/-- Model of Python `s.lower()`. -/
def pyLower (s : String) : String :=
  String.mk (s.data.map Char.toLower)

/-- `listIsPrefixOf p l`: `p` is a prefix of `l` (decidable, Bool-valued). -/
def listIsPrefixOf : List Char → List Char → Bool
  | [], _ => true
  | _ :: _, [] => false
  | p :: ps, c :: cs => decide (p = c) && listIsPrefixOf ps cs

/-- `listInfixOf p l`: `p` occurs as a contiguous substring of `l`. -/
def listInfixOf (p : List Char) : List Char → Bool
  | [] => listIsPrefixOf p []
  | c :: cs => listIsPrefixOf p (c :: cs) || listInfixOf p cs

/-- Model of Python `needle in hay` on strings. -/
def strIn (needle hay : String) : Bool :=
  listInfixOf needle.data hay.data

/-- Model of Python `s.startswith(p)`. -/
def strStartsWith (s p : String) : Bool :=
  listIsPrefixOf p.data s.data

/-- Model of Python `s[n:]` (drop the first `n` characters). -/
def strDrop (s : String) (n : ℕ) : String :=
  String.mk (s.data.drop n)

/-! ## Stable descending sort (model of Python `list.sort(key=…, reverse=True)`) -/

/-- Insert `x` into a descending-sorted list, after every element whose
key is strictly greater, before the first element whose key is ≤ the key
of `x` (preserving stability: `x` comes before equal-key elements that
followed it). -/
def insertByDesc (lt : α → α → Bool) (x : α) : List α → List α
  | [] => [x]
  | y :: ys => if lt x y then y :: insertByDesc lt x ys else x :: y :: ys

/-- Stable descending sort: any stable sort in descending key order
produces this list, so this models Python's stable `sort(reverse=True)`. -/
def sortByDesc (lt : α → α → Bool) : List α → List α
  | [] => []
  | x :: xs => insertByDesc lt x (sortByDesc lt xs)

/-- Descending sortedness with respect to a strict Bool comparison. -/
def SortedDesc (lt : α → α → Bool) : List α → Prop
  | [] => True
  | [_] => True
  | x :: y :: ys => lt x y = false ∧ SortedDesc lt (y :: ys)

/-! ## Data model (spec.md section 3, `model3_food_recommender.py`) -/

/-- A catalog entry of `model3_food_database.json`: per-100g nutrition,
dietary flags and allergen tags. -/
structure Food where
  id : String
  name : String
  category : String
  calories_per_100g : ℚ
  protein_g : ℚ
  carbs_g : ℚ
  fat_g : ℚ
  fiber_g : ℚ
  vegetarian : Bool
  vegan : Bool
  allergens : List String
deriving DecidableEq

/-- The `foods_by_category` dictionary of `FoodRecommender`, restricted to
the five category keys the engine reads. -/
structure Catalog where
  protein : List Food
  grain : List Food
  carb : List Food
  vegetable : List Food
  fat : List Food
deriving DecidableEq

/-- A food entry of a built meal.  The dictionaries built by `build_meal`
carry no `allergens` key; the validator reads `food.get("allergens", [])`,
so the `allergens` field holds whatever list that lookup yields
(`[]` for engine-built plans). -/
structure PortionedFood where
  id : String
  name : String
  portion_g : ℚ
  calories : ℚ
  protein_g : ℚ
  carbs_g : ℚ
  fat_g : ℚ
  allergens : List String
deriving DecidableEq

/-- A meal as returned by `build_meal` (the `suggested_sentence` string is
presentation-only and omitted). -/
structure Meal where
  foods : List PortionedFood
  total_calories : ℚ
  total_protein_g : ℚ
  total_carbs_g : ℚ
  total_fat_g : ℚ
deriving DecidableEq

/-! ## SafetyValidator (`core/safety_validator.py`) -/

/-- Structured form of the violation messages collected by
`SafetyValidator.validate_meal_plan`. -/
inductive Violation
  | allergen (foodName mealName : String)
  | condimentPortion (foodName : String) (portion : ℚ)
  | portionTooSmall (foodName : String) (portion : ℚ)
  | portionTooLarge (foodName : String) (portion : ℚ)
  | lowProtein (mealName : String) (protein : ℚ)
deriving DecidableEq

/-- `CONDIMENTS + OILS_AND_FATS` in the order the Python code
concatenates them. -/
def condimentOilNames : List String :=
  ["sauce", "spices", "salt", "pepper", "sugar", "honey",
   "oil", "butter", "ghee", "mayonnaise", "dressing"]

/-- Gate-1 inner loop: scan one meal's foods for the first food carrying
an allergen tag that is a member of `restrictions`. -/
def gate1ScanFoods (mealName : String) (restrictions : List String) :
    List PortionedFood → Option Violation
  | [] => none
  | f :: fs =>
    if restrictions.any (fun r => f.allergens.any (fun a => decide (a = r))) then
      some (.allergen f.name mealName)
    else gate1ScanFoods mealName restrictions fs

/-- Gate-1 outer loop: scan the plan's meals (the `daily_summary` entry is
skipped, exactly as the code does; every `Meal` value has a `foods` list,
so the code's `"foods" not in meal` guard is vacuous here). -/
def gate1Scan (restrictions : List String) :
    List (String × Meal) → Option Violation
  | [] => none
  | (mealName, meal) :: rest =>
    if mealName = "daily_summary" then gate1Scan restrictions rest
    else
      match gate1ScanFoods mealName restrictions meal.foods with
      | some v => some v
      | none => gate1Scan restrictions rest

/-- Spec-side combinator: some food of some meal (other than the skipped
`daily_summary` entry) carries an allergen tag present in `restrictions`. -/
def hasRestrictedAllergen (plan : List (String × Meal))
    (restrictions : List String) : Bool :=
  plan.any (fun p =>
    !(decide (p.1 = "daily_summary")) &&
    p.2.foods.any (fun f =>
      restrictions.any (fun r => f.allergens.any (fun a => decide (a = r)))))

/-- Gate-2 check of one food: condiment/oil-class items (matched by name
substring against `condimentOilNames`) must lie in [5, 50] g, all other
items in [15, 600] g. -/
def gate2FoodErrors (f : PortionedFood) : List Violation :=
  let nameLower := pyLower f.name
  let isTinyOk := condimentOilNames.any (fun x => strIn x nameLower)
  if isTinyOk then
    if f.portion_g < 5 ∨ 50 < f.portion_g then
      [.condimentPortion f.name f.portion_g]
    else []
  else
    if f.portion_g < 15 then [.portionTooSmall f.name f.portion_g]
    else if 600 < f.portion_g then [.portionTooLarge f.name f.portion_g]
    else []

/-- Gate 2: portion-sanity violations collected over the whole plan. -/
def gate2Errors (plan : List (String × Meal)) : List Violation :=
  plan.flatMap (fun p =>
    if p.1 = "daily_summary" then []
    else p.2.foods.flatMap gate2FoodErrors)

/-- First meal stored under a given name (Python dict lookup). -/
def lookupMeal (plan : List (String × Meal)) (mealName : String) : Option Meal :=
  (plan.find? (fun p => decide (p.1 = mealName))).map (·.2)

/-- Gate 3: breakfast, lunch and dinner (snack excluded) must each reach
at least 15 g protein. -/
def gate3Errors (plan : List (String × Meal)) : List Violation :=
  ["breakfast", "lunch", "dinner"].flatMap (fun mealName =>
    match lookupMeal plan mealName with
    | some meal =>
      if meal.total_protein_g < 15 then [.lowProtein mealName meal.total_protein_g]
      else []
    | none => [])

/-- `SafetyValidator.validate_meal_plan`: gate 1 fails fast returning only
the first allergen violation; otherwise gates 2 and 3 accumulate their
violations and the plan is valid iff none were collected.  The
`daily_target_calories` argument is accepted and ignored, exactly as in
the source. -/
def validateMealPlan (plan : List (String × Meal)) (_dailyTargetCalories : ℚ)
    (restrictions : List String) : Bool × List Violation :=
  match gate1Scan restrictions plan with
  | some v => (false, [v])
  | none =>
    let errors := gate2Errors plan ++ gate3Errors plan
    (errors.isEmpty, errors)

/-! ## FoodRecommender (`model_3_build/model3_food_recommender.py`) -/

/-- `MACRO_RATIOS`: protein/carb/fat calorie shares per fitness goal. -/
def macroRatios (goal : String) : Option (ℚ × ℚ × ℚ) :=
  if goal = "weight_loss" then some (35/100, 40/100, 25/100)
  else if goal = "muscle_gain" then some (30/100, 50/100, 20/100)
  else if goal = "maintenance" then some (25/100, 45/100, 30/100)
  else none

/-- Daily gram targets for the three macros. -/
structure MacroTargets where
  protein_g : ℚ
  carbs_g : ℚ
  fat_g : ℚ
deriving DecidableEq

/-- `FoodRecommender.calculate_macros` (callers guard goal validity, the
Python code raises `ValueError` on an unknown goal; the `none` fallback
is unreachable from `generatePlan`). -/
def calculateMacros (calories : ℚ) (goal : String) : MacroTargets :=
  match macroRatios goal with
  | some (p, c, f) =>
    { protein_g := pyRound (calories * p / 4) 1
      carbs_g := pyRound (calories * c / 4) 1
      fat_g := pyRound (calories * f / 9) 1 }
  | none => { protein_g := 0, carbs_g := 0, fat_g := 0 }

/-- Does a `no_…` restriction exclude this food via its allergen tags
(`no_nuts` covers both `tree nuts` and `peanuts`)? -/
def allergenRestrictionHit (r : String) (f : Food) : Bool :=
  if strStartsWith r "no_" then
    let a := strDrop r 3
    if a = "nuts" then
      f.allergens.any (fun x => decide (x = "tree nuts")) ||
      f.allergens.any (fun x => decide (x = "peanuts"))
    else f.allergens.any (fun x => decide (x = a))
  else false

/-- The body of `_filter_by_restrictions`' per-food loop. -/
def keepFood (restrictions : List String) (f : Food) : Bool :=
  (!(restrictions.any (fun r => decide (r = "vegetarian"))) || f.vegetarian) &&
  (!(restrictions.any (fun r => decide (r = "vegan"))) || f.vegan) &&
  !(restrictions.any (fun r => allergenRestrictionHit r f))

/-- `not restrictions or restrictions == ["none"]`: in this case
`_filter_by_restrictions` returns its argument list unfiltered — and,
crucially, returns the *same list object*, so a later in-place sort
reorders the catalog's stored list. -/
def isPassthroughRestrictions (restrictions : List String) : Bool :=
  restrictions.isEmpty || decide (restrictions = ["none"])

/-- `FoodRecommender._filter_by_restrictions`. -/
def filterByRestrictions (foods : List Food) (restrictions : List String) :
    List Food :=
  if isPassthroughRestrictions restrictions then foods
  else foods.filter (keepFood restrictions)

/-- The four derived nutrition numbers of `_calculate_portion_calories`. -/
structure Nutrition where
  calories : ℚ
  protein_g : ℚ
  carbs_g : ℚ
  fat_g : ℚ
deriving DecidableEq

/-- `FoodRecommender._calculate_portion_calories`. -/
def calculatePortionCalories (f : Food) (portion : ℚ) : Nutrition :=
  let factor := portion / 100
  { calories := pyRound (f.calories_per_100g * factor) 1
    protein_g := pyRound (f.protein_g * factor) 1
    carbs_g := pyRound (f.carbs_g * factor) 1
    fat_g := pyRound (f.fat_g * factor) 1 }

/-- Running `selected_foods` / `total_nutrition` accumulator of
`build_meal`. -/
structure MealState where
  foods : List PortionedFood
  calories : ℚ
  protein_g : ℚ
  carbs_g : ℚ
  fat_g : ℚ
deriving DecidableEq

/-- `build_meal`'s initial accumulator. -/
def emptyMealState : MealState :=
  { foods := [], calories := 0, protein_g := 0, carbs_g := 0, fat_g := 0 }

/-- Append one selected food and add its nutrition to the running totals. -/
def addFood (s : MealState) (pf : PortionedFood) : MealState :=
  { foods := s.foods ++ [pf]
    calories := s.calories + pf.calories
    protein_g := s.protein_g + pf.protein_g
    carbs_g := s.carbs_g + pf.carbs_g
    fat_g := s.fat_g + pf.fat_g }

/-- Build the plan-food dictionary appended by each selection step:
`portion_g` is stored rounded to whole grams (`round(portion_g, 0)`)
while the nutrition was computed from the unrounded portion. -/
def mkPortionedFood (f : Food) (portion : ℚ) (n : Nutrition) : PortionedFood :=
  { id := f.id, name := f.name, portion_g := pyRound portion 0
    calories := n.calories, protein_g := n.protein_g
    carbs_g := n.carbs_g, fat_g := n.fat_g, allergens := [] }

/-- Sort comparison of step 1: `key=lambda x: x["protein_g"]`. -/
def ltProteinKey (a b : Food) : Bool := decide (a.protein_g < b.protein_g)

/-- The fixed complex-carbohydrate allowlist of step 2. -/
def complexCarbs : List String :=
  ["quinoa", "oats", "brown_rice", "whole_wheat_pasta", "sweet_potato"]

/-- The fixed nutrient-dense vegetable allowlist of step 3. -/
def vegPriorityIds : List String := ["broccoli", "spinach", "kale", "bell_pepper"]

/-- The fixed oil/seed priority allowlist of step 4. -/
def fatPriorityIds : List String :=
  ["olive_oil", "avocado", "chia_seeds", "flaxseeds"]

/-- `x["id"] in ids`. -/
def idInList (ids : List String) (f : Food) : Bool :=
  ids.any (fun s => decide (s = f.id))

/-- Sort comparison for the tuple key `(x["id"] in ids, x["fiber_g"])`
(lexicographic, `False < True`), used by steps 2 and 3. -/
def ltPriorityFiberKey (ids : List String) (a b : Food) : Bool :=
  (!(idInList ids a) && idInList ids b) ||
  ((idInList ids a == idInList ids b) && decide (a.fiber_g < b.fiber_g))

/-- Sort comparison for the Boolean key `x["id"] in fat_priority` of
step 4. -/
def ltFatPriorityKey (a b : Food) : Bool :=
  !(idInList fatPriorityIds a) && idInList fatPriorityIds b

/-- Step 1 of `build_meal`: pick the highest-protein-density item from
the `protein` category, sized at 60 % of the meal's protein target,
clamped to [50 g, 500 g].  Under pass-through restrictions the in-place
sort reorders the catalog's `protein` list. -/
def step1Protein (mealProteinG : ℚ) (restrictions : List String)
    (cs : Catalog × MealState) : Catalog × MealState :=
  let cat := cs.1
  let s := cs.2
  let pool := filterByRestrictions cat.protein restrictions
  let sorted := sortByDesc ltProteinKey pool
  let cat' := if isPassthroughRestrictions restrictions then
      { cat with protein := sorted } else cat
  match sorted with
  | [] => (cat', s)
  | best :: _ =>
    let proteinNeeded := mealProteinG * (6/10)
    let portion := min (max ((proteinNeeded / best.protein_g) * 100) 50) 500
    let n := calculatePortionCalories best portion
    (cat', addFood s (mkPortionedFood best portion n))

/-- Step 2 of `build_meal`: pick from `grain + carb` (a fresh
concatenated list, so no catalog mutation), preferring the complex-carb
allowlist with fiber tie-break, filling the remaining carb gap, clamped
to [50 g, 500 g]. -/
def step2Grain (mealCarbsG : ℚ) (restrictions : List String)
    (cs : Catalog × MealState) : Catalog × MealState :=
  let cat := cs.1
  let s := cs.2
  let pool := filterByRestrictions (cat.grain ++ cat.carb) restrictions
  let sorted := sortByDesc (ltPriorityFiberKey complexCarbs) pool
  match sorted with
  | [] => (cat, s)
  | best :: _ =>
    let carbsNeeded := max (mealCarbsG - s.carbs_g) 0
    let portion := min (max ((carbsNeeded / best.carbs_g) * 100) 50) 500
    let n := calculatePortionCalories best portion
    (cat, addFood s (mkPortionedFood best portion n))

/-- Step 3 of `build_meal`: fixed 90 g portion of the preferred
vegetable.  Under pass-through restrictions the in-place sort reorders
the catalog's `vegetable` list. -/
def step3Vegetable (restrictions : List String)
    (cs : Catalog × MealState) : Catalog × MealState :=
  let cat := cs.1
  let s := cs.2
  let pool := filterByRestrictions cat.vegetable restrictions
  let sorted := sortByDesc (ltPriorityFiberKey vegPriorityIds) pool
  let cat' := if isPassthroughRestrictions restrictions then
      { cat with vegetable := sorted } else cat
  match sorted with
  | [] => (cat', s)
  | best :: _ =>
    let portion : ℚ := 90
    let n := calculatePortionCalories best portion
    (cat', addFood s (mkPortionedFood best portion n))

/-- Step 4 of `build_meal`: only when the running fat total is below
70 % of the meal's fat target, add an oil/seed-preferred fat source,
clamped to [5 g, 30 g].  Under pass-through restrictions the in-place
sort reorders the catalog's `fat` list. -/
def step4Fat (mealFatG : ℚ) (restrictions : List String)
    (cs : Catalog × MealState) : Catalog × MealState :=
  let cat := cs.1
  let s := cs.2
  if s.fat_g < mealFatG * (7/10) then
    let pool := filterByRestrictions cat.fat restrictions
    let sorted := sortByDesc ltFatPriorityKey pool
    let cat' := if isPassthroughRestrictions restrictions then
        { cat with fat := sorted } else cat
    match sorted with
    | [] => (cat', s)
    | best :: _ =>
      let fatNeeded := max (mealFatG - s.fat_g) 0
      let portion := min (max ((fatNeeded / best.fat_g) * 100) 5) 30
      let n := calculatePortionCalories best portion
      (cat', addFood s (mkPortionedFood best portion n))
  else (cat, s)

/-- Steps 1–4 of `build_meal`: the greedy selection phase. -/
def buildSelection (mealProteinG mealCarbsG mealFatG : ℚ)
    (restrictions : List String) (cat : Catalog) : Catalog × MealState :=
  step4Fat mealFatG restrictions
    (step3Vegetable restrictions
      (step2Grain mealCarbsG restrictions
        (step1Protein mealProteinG restrictions (cat, emptyMealState))))

/-- Scaling of one selected food in step 5 of `build_meal`. -/
def scaleFood (sf : ℚ) (f : PortionedFood) : PortionedFood :=
  { f with portion_g := pyRound (f.portion_g * sf) 0
           calories := pyRound (f.calories * sf) 1
           protein_g := pyRound (f.protein_g * sf) 1
           carbs_g := pyRound (f.carbs_g * sf) 1
           fat_g := pyRound (f.fat_g * sf) 1 }

/-- Step 5 of `build_meal`: scale every selected portion by
`meal_calories / total_calories`, but only when the deviation exceeds
3 % (`abs(1 - scale_factor) > 0.03`) and the factor lies within
[0.7, 1.3]; otherwise every portion is left exactly as selected.  After
scaling the totals are recomputed from the scaled foods. -/
def step5Scale (mealCalories : ℚ) (s : MealState) : MealState :=
  if 0 < s.calories then
    let sf := mealCalories / s.calories
    if 3/100 < |1 - sf| ∧ 7/10 ≤ sf ∧ sf ≤ 13/10 then
      let foods' := s.foods.map (scaleFood sf)
      { foods := foods'
        calories := (foods'.map (fun f => f.calories)).sum
        protein_g := (foods'.map (fun f => f.protein_g)).sum
        carbs_g := (foods'.map (fun f => f.carbs_g)).sum
        fat_g := (foods'.map (fun f => f.fat_g)).sum }
    else s
  else s

/-- Final rounding of the meal totals and assembly of the returned meal
dictionary. -/
def finalizeMeal (s : MealState) : Meal :=
  { foods := s.foods
    total_calories := pyRound s.calories 1
    total_protein_g := pyRound s.protein_g 1
    total_carbs_g := pyRound s.carbs_g 1
    total_fat_g := pyRound s.fat_g 1 }

/-- `FoodRecommender.build_meal`: the five-step greedy fill, threading
the (possibly re-sorted) catalog. -/
def buildMeal (mealCalories mealProteinG mealCarbsG mealFatG : ℚ)
    (restrictions : List String) (cat : Catalog) : Meal × Catalog :=
  let r := buildSelection mealProteinG mealCarbsG mealFatG restrictions cat
  (finalizeMeal (step5Scale mealCalories r.2), r.1)

/-- Structured form of the error strings of
`FoodRecommender._validate_safety`. -/
inductive EngineViolation
  | insufficientProtein (mealName : String) (protein : ℚ)
  | unsafePortion (mealName foodName : String) (portion : ℚ)
deriving DecidableEq

/-- `_validate_safety`'s first loop: breakfast, lunch, dinner (not snack)
need at least `MIN_PROTEIN_PER_MEAL = 20` g protein. -/
def engineProteinErrors (plan : List (String × Meal)) : List EngineViolation :=
  plan.flatMap (fun p =>
    if p.1 = "breakfast" ∨ p.1 = "lunch" ∨ p.1 = "dinner" then
      if p.2.total_protein_g < 20 then
        [.insufficientProtein p.1 p.2.total_protein_g]
      else []
    else [])

/-- `_validate_safety`'s second loop: a portion outside
`[MIN_PORTION, MAX_PORTION] = [50, 500]` is an error only when it also
exceeds 50 g (tiny portions like oil are deliberately ignored), i.e.
exactly when it exceeds 500 g. -/
def enginePortionErrors (plan : List (String × Meal)) : List EngineViolation :=
  plan.flatMap (fun p =>
    p.2.foods.flatMap (fun f =>
      if (f.portion_g < 50 ∨ 500 < f.portion_g) ∧ 50 < f.portion_g then
        [.unsafePortion p.1 f.name f.portion_g]
      else []))

/-- `FoodRecommender._validate_safety` (its `restrictions` argument is
unused by the source body). -/
def validateSafety (plan : List (String × Meal)) (_restrictions : List String) :
    Bool × List EngineViolation :=
  let errors := engineProteinErrors plan ++ enginePortionErrors plan
  (errors.isEmpty, errors)

/-- `daily_summary` of a successful plan (`macro_accuracy` is kept as the
percentage number the code formats). -/
structure DailySummary where
  calories : ℚ
  protein_g : ℚ
  carbs_g : ℚ
  fat_g : ℚ
  macro_accuracy : ℚ
deriving DecidableEq

/-- Result of `FoodRecommender.generate_plan`: `status == "success"` with
plan and summary, or `status == "error"` (any raised exception is caught
and also reported as an error result). -/
inductive PlanResult
  | error
  | success (mealPlan : List (String × Meal)) (summary : DailySummary)
deriving DecidableEq

/-- `FoodRecommender.generate_plan`.  An unknown goal raises `ValueError`
inside `calculate_macros` (caught: error, catalog untouched); a zero
calorie target raises `ZeroDivisionError` at the accuracy computation
(caught: error, after the four meals were already built, so the catalog
reorderings persist). -/
def generatePlan (cat : Catalog) (targetCalories : ℚ) (fitnessGoal : String)
    (restrictions : List String) : PlanResult × Catalog :=
  if (macroRatios fitnessGoal).isNone then (.error, cat)
  else
    let m := calculateMacros targetCalories fitnessGoal
    let rb := buildMeal ((pyInt (targetCalories * (25/100)) : ℚ))
      (m.protein_g * (25/100)) (m.carbs_g * (25/100)) (m.fat_g * (25/100))
      restrictions cat
    let rl := buildMeal ((pyInt (targetCalories * (35/100)) : ℚ))
      (m.protein_g * (35/100)) (m.carbs_g * (35/100)) (m.fat_g * (35/100))
      restrictions rb.2
    let rd := buildMeal ((pyInt (targetCalories * (30/100)) : ℚ))
      (m.protein_g * (30/100)) (m.carbs_g * (30/100)) (m.fat_g * (30/100))
      restrictions rl.2
    let rs := buildMeal ((pyInt (targetCalories * (15/100)) : ℚ))
      (m.protein_g * (15/100)) (m.carbs_g * (15/100)) (m.fat_g * (15/100))
      restrictions rd.2
    let plan := [("breakfast", rb.1), ("lunch", rl.1),
                 ("dinner", rd.1), ("snack", rs.1)]
    if targetCalories = 0 then (.error, rs.2)
    else
      let sumCal := pyRound (rb.1.total_calories + rl.1.total_calories
        + rd.1.total_calories + rs.1.total_calories) 1
      let sumP := pyRound (rb.1.total_protein_g + rl.1.total_protein_g
        + rd.1.total_protein_g + rs.1.total_protein_g) 1
      let sumC := pyRound (rb.1.total_carbs_g + rl.1.total_carbs_g
        + rd.1.total_carbs_g + rs.1.total_carbs_g) 1
      let sumF := pyRound (rb.1.total_fat_g + rl.1.total_fat_g
        + rd.1.total_fat_g + rs.1.total_fat_g) 1
      let summary : DailySummary :=
        { calories := sumCal, protein_g := sumP, carbs_g := sumC
          fat_g := sumF, macro_accuracy := sumCal / targetCalories * 100 }
      if (validateSafety plan restrictions).1 then
        (.success plan summary, rs.2)
      else (.error, rs.2)

/-! ## Conversation data model (`core/conversation_manager.py`) -/

/-- The per-user profile dictionary.  A `none` field models a
present-but-null (`None`) entry.  `age` is stored as `int(age)`. -/
structure Profile where
  weight_kg : Option ℚ
  height_cm : Option ℚ
  age : Option ℤ
  gender : String
  activity_level : Option String
  fitness_goal : Option String
  current_week : ℤ
  dietary_restrictions : List String
deriving DecidableEq

/-- A user's conversation record (timestamps as seconds, rational). -/
structure Conv where
  current_state : String
  profile : Profile
  last_interaction : ℚ
  message_count : ℤ
deriving DecidableEq

def STATE_GREETING : String := "greeting"

def STATE_ONBOARDING_GOAL : String := "onboarding_goal"

def STATE_ONBOARDING_WEIGHT : String := "onboarding_weight"

def STATE_ONBOARDING_HEIGHT : String := "onboarding_height"

def STATE_ONBOARDING_AGE : String := "onboarding_age"

def STATE_ONBOARDING_ACTIVITY : String := "onboarding_activity"

def STATE_READY_FOR_PLAN : String := "ready_for_plan"

def STATE_SHOWING_ROADMAP : String := "showing_roadmap"

def STATE_ONBOARDING_DIET : String := "onboarding_diet"

/-- The profile a brand-new or reset conversation starts with: every
collectable field unset, `gender` holding only the fixed fallback
`"female"` used for the external predictor. -/
def freshProfile : Profile :=
  { weight_kg := none, height_cm := none, age := none, gender := "female"
    activity_level := none, fitness_goal := none, current_week := 1
    dietary_restrictions := [] }

/-- A brand-new conversation record. -/
def freshConv (now : ℚ) : Conv :=
  { current_state := STATE_GREETING, profile := freshProfile
    last_interaction := now, message_count := 0 }

/-- The `ACTIVITY_LEVELS` synonym table, in source order. -/
def ACTIVITY_LEVELS : List (String × List String) :=
  [("sedentary", ["sedentary", "sitting", "desk", "inactive", "lazy"]),
   ("light", ["light", "walking", "casual"]),
   ("moderate", ["moderate", "regular", "normal", "active"]),
   ("active", ["active", "very active", "exercise", "gym", "workout"]),
   ("very_active", ["very active", "athlete", "intense", "training"])]

/-- The `GOALS` synonym table, in source order. -/
def GOALS : List (String × List String) :=
  [("weight_loss", ["lose", "loss", "reduce", "slim", "cut", "shed"]),
   ("muscle_gain", ["gain", "build", "bulk", "muscle", "grow", "mass"]),
   ("maintenance", ["maintain", "stay", "keep", "stable", "preserve"])]

/-- `ConversationManager._match_keyword`: first table entry one of whose
synonyms occurs as a substring of the lower-cased text. -/
def matchKeyword (text : String) (mapping : List (String × List String)) :
    Option String :=
  (mapping.find? (fun p => p.2.any (fun s => strIn s (pyLower text)))).map (·.1)

/-- The unit-word alternatives of `_extract_number`'s
`re.sub(r"(kg|kilogram|kilograms|cm|centimeter|centimeters|years?|old)", …)`,
flattened in the order the regex engine tries them (`years?` greedily
tries `years` before `year`). -/
def unitPatterns : List String :=
  ["kg", "kilogram", "kilograms", "cm", "centimeter", "centimeters",
   "years", "year", "old"]

/-- Case-insensitive prefix match of a (lower-case) pattern against the
input characters. -/
def lowerPrefMatch : List Char → List Char → Bool
  | [], _ => true
  | _ :: _, [] => false
  | p :: ps, c :: cs => decide (p = c.toLower) && lowerPrefMatch ps cs

/-- Left-to-right, non-overlapping removal of the unit words
(case-insensitive), as `re.sub` performs it.  The fuel equals the input
length; every step consumes at least one character, so the fuel never
runs out. -/
def removeUnitsAux : ℕ → List Char → List Char
  | 0, l => l
  | _ + 1, [] => []
  | fuel + 1, c :: cs =>
    match unitPatterns.find? (fun p => lowerPrefMatch p.data (c :: cs)) with
    | some p => removeUnitsAux fuel ((c :: cs).drop p.data.length)
    | none => c :: removeUnitsAux fuel cs

/-- Removal of all unit words from the input. -/
def removeUnits (l : List Char) : List Char := removeUnitsAux l.length l

/-- Digit run to number. -/
def digitsToNat (l : List Char) : ℕ :=
  l.foldl (fun n c => 10 * n + (c.toNat - 48)) 0

/-- Value of the first regex match of `\d+\.?\d*` starting at a digit:
the integer digit run, an optional dot, and an optional fraction run. -/
def parseDecimal (l : List Char) : ℚ :=
  let intPart := l.takeWhile Char.isDigit
  let rest := l.dropWhile Char.isDigit
  match rest with
  | '.' :: r =>
    let fracPart := r.takeWhile Char.isDigit
    (digitsToNat intPart : ℚ) + (digitsToNat fracPart : ℚ) / 10 ^ fracPart.length
  | _ => (digitsToNat intPart : ℚ)

/-- `re.search(r"(\d+\.?\d*)", …)`: find the leftmost digit and parse the
number starting there. -/
def findFirstNumber : List Char → Option ℚ
  | [] => none
  | c :: cs => if c.isDigit then some (parseDecimal (c :: cs)) else findFirstNumber cs

/-- `ConversationManager._extract_number`: strip, remove unit words, then
return the first decimal/integer token; alphabetic number words contain
no digit and yield `none`. -/
def extractNumber (text : String) : Option ℚ :=
  findFirstNumber (removeUnits (pyStripList text.data))

/-- Structured form of the response strings of
`ConversationManager._handle_state` (presentation text omitted). -/
inductive Response
  | startingFresh
  | greetIntro
  | greatGoal
  | askGoalAgain
  | weightLogged (w : ℚ)
  | needNumberWeight
  | unusualWeight (w : ℚ)
  | heightLogged (h : ℚ)
  | needNumberHeight
  | unusualHeight (h : ℚ)
  | ageLogged (a : ℤ)
  | needNumberAge
  | unusualAge
  | dietVeg
  | dietNonVeg
  | askDietAgain
  | askActivityAgain
  | showingRoadmapGuidance
  | fallback
deriving DecidableEq

/-- The universal reset keywords. -/
def resetKeywords : List String := ["reset", "restart", "start over", "new"]

/-- `ConversationManager._handle_state`.  The plan-generation pipeline
`_generate_plan` (predictor → adapter → engine → validator → NLG) is
injected as `pg`, since it reaches the external Random-Forest model; it
receives the already-updated conversation and returns the response
together with the possibly further-mutated conversation. -/
def handleState (pg : Conv → Response × Conv) (conv : Conv)
    (message : String) : Response × Conv :=
  let state := conv.current_state
  let profile := conv.profile
  if resetKeywords.any (fun k => decide (k = pyStripLower message)) then
    (.startingFresh,
      { conv with current_state := STATE_GREETING, profile := freshProfile
                  message_count := 0 })
  else if state = STATE_GREETING then
    (.greetIntro, { conv with current_state := STATE_ONBOARDING_GOAL })
  else if state = STATE_ONBOARDING_GOAL then
    match matchKeyword message GOALS with
    | some goal =>
      (.greatGoal,
        { conv with current_state := STATE_ONBOARDING_WEIGHT
                    profile := { profile with fitness_goal := some goal } })
    | none => (.askGoalAgain, conv)
  else if state = STATE_ONBOARDING_WEIGHT then
    match extractNumber message with
    | some w =>
      if w ≠ 0 ∧ 40 ≤ w ∧ w ≤ 200 then
        (.weightLogged w,
          { conv with current_state := STATE_ONBOARDING_HEIGHT
                      profile := { profile with weight_kg := some w } })
      else (.unusualWeight w, conv)
    | none => (.needNumberWeight, conv)
  else if state = STATE_ONBOARDING_HEIGHT then
    match extractNumber message with
    | some h =>
      if h ≠ 0 ∧ 100 ≤ h ∧ h ≤ 250 then
        (.heightLogged h,
          { conv with current_state := STATE_ONBOARDING_AGE
                      profile := { profile with height_cm := some h } })
      else (.unusualHeight h, conv)
    | none => (.needNumberHeight, conv)
  else if state = STATE_ONBOARDING_AGE then
    match extractNumber message with
    | some a =>
      if a ≠ 0 ∧ 13 ≤ a ∧ a ≤ 100 then
        (.ageLogged (pyInt a),
          { conv with current_state := STATE_ONBOARDING_DIET
                      profile := { profile with age := some (pyInt a) } })
      else (.unusualAge, conv)
    | none => (.needNumberAge, conv)
  else if state = STATE_ONBOARDING_DIET then
    if ["veg", "vegetarian", "vegan"].any
        (fun w => strIn w (pyStripLower message)) then
      (.dietVeg,
        { conv with current_state := STATE_ONBOARDING_ACTIVITY
                    profile := { profile with
                      dietary_restrictions := ["vegetarian"] } })
    else if strIn "non" (pyStripLower message) then
      (.dietNonVeg,
        { conv with current_state := STATE_ONBOARDING_ACTIVITY
                    profile := { profile with dietary_restrictions := [] } })
    else (.askDietAgain, conv)
  else if state = STATE_ONBOARDING_ACTIVITY then
    match matchKeyword message ACTIVITY_LEVELS with
    | some act =>
      pg { conv with current_state := STATE_READY_FOR_PLAN
                     profile := { profile with activity_level := some act } }
    | none => (.askActivityAgain, conv)
  else if state = STATE_READY_FOR_PLAN then
    pg conv
  else if state = STATE_SHOWING_ROADMAP then
    (.showingRoadmapGuidance, conv)
  else (.fallback, conv)

/-- Lookup of a user's record in the conversations store. -/
def lookupConv (store : List (String × Conv)) (uid : String) : Option Conv :=
  (store.find? (fun p => decide (p.1 = uid))).map (·.2)

/-- In-place update of a user's record. -/
def updateConv (store : List (String × Conv)) (uid : String) (c : Conv) :
    List (String × Conv) :=
  store.map (fun p => if p.1 = uid then (p.1, c) else p)

/-- `ConversationManager.get_user_conversation`: create a fresh record on
first contact; on every access, if more than 7 days
(`timedelta(days=7)`, i.e. 604800 s) passed since `last_interaction`,
force `current_state` back to greeting, leaving the profile untouched. -/
def getUserConversation (store : List (String × Conv)) (uid : String)
    (now : ℚ) : Conv × List (String × Conv) :=
  let store1 := if (lookupConv store uid).isSome then store
                else store ++ [(uid, freshConv now)]
  match lookupConv store1 uid with
  | some c =>
    let c' := if 7 * 86400 < now - c.last_interaction then
        { c with current_state := STATE_GREETING } else c
    (c', updateConv store1 uid c')
  | none => (freshConv now, store1)

/-! ## RoadmapGenerator post-processing (`core/roadmap_generator.py`) -/

/-- The dictionary returned by `RoadmapGenerator.predict`. -/
structure RoadmapOutput where
  target_weight_kg : ℚ
  target_calories : ℤ
  target_exercise_minutes : ℤ
  fitness_goal : Option String
  dietary_restrictions : List String
deriving DecidableEq

/-- `RoadmapGenerator.predict`'s safety post-processing of the raw model
predictions (the Random-Forest regression itself is external; its three
raw outputs are parameters here; `np.isfinite` always holds on ℚ).
A `none` goal models a present-but-null profile entry, which
`str(None).lower()` renders as `"none"` and which therefore matches
neither goal detector. -/
def roadmapPredict (rawWeight rawCalories rawExercise : ℚ)
    (profile : Profile) : RoadmapOutput :=
  let tc1 := if rawCalories ≤ 0 then (2000 : ℚ)
             else if rawCalories < 1000 then 1500
             else rawCalories
  let goalRaw := profile.fitness_goal
  let gl := pyLower (match goalRaw with | some g => g | none => "None")
  let isMuscleGain := (strIn "muscle" gl || strIn "gain" gl) &&
    !(strIn "loss" gl) && !(strIn "cut" gl)
  let isWeightLoss := strIn "loss" gl || strIn "lose" gl ||
    strIn "cut" gl || strIn "shed" gl
  let tc2 :=
    if isMuscleGain then
      let minCal : ℚ := if profile.gender = "male" then 2700 else 2400
      if tc1 < minCal then minCal else tc1
    else if isWeightLoss then
      let minCal : ℚ := if profile.gender = "male" then 1500 else 1200
      if tc1 < minCal then minCal else tc1
    else tc1
  { target_weight_kg := pyRound rawWeight 1
    target_calories := pyInt tc2
    target_exercise_minutes := pyInt rawExercise
    fitness_goal := goalRaw
    dietary_restrictions := profile.dietary_restrictions }

/-- The engine input assembled by
`ConversationManager.adapt_model2_to_model3`. -/
structure Model3Input where
  target_calories : ℤ
  fitness_goal : Option String
  dietary_restrictions : List String
deriving DecidableEq

/-- `ConversationManager.adapt_model2_to_model3`: calories from the
predictor, goal and restrictions from the user profile. -/
def adaptModel2ToModel3 (m2 : RoadmapOutput) (profile : Profile) :
    Model3Input :=
  { target_calories := m2.target_calories
    fitness_goal := profile.fitness_goal
    dietary_restrictions := profile.dietary_restrictions }

/-! ## Concrete instances used by counterexamples and witnesses -/

/-- A plan-generation stub for exercising `handleState` branches that do
not invoke the pipeline. -/
def pgStub : Conv → Response × Conv := fun c => (.fallback, c)

/-- A protein-dense catalog entry: with it alone, every meal's required
scale factor exceeds 1.3, so step 5 never rescales. -/
def overDenseProtein : Food :=
  { id := "pp", name := "protein isolate", category := "protein"
    calories_per_100g := 400, protein_g := 100, carbs_g := 0, fat_g := 0
    fiber_g := 0, vegetarian := true, vegan := true, allergens := [] }

/-- A catalog containing only `overDenseProtein`. -/
def overDenseCatalog : Catalog :=
  { protein := [overDenseProtein], grain := [], carb := []
    vegetable := [], fat := [] }

/-- A low-protein catalog entry listed first. -/
def lowProteinFood : Food :=
  { id := "p1", name := "tofu", category := "protein"
    calories_per_100g := 100, protein_g := 10, carbs_g := 2, fat_g := 5
    fiber_g := 0, vegetarian := true, vegan := true, allergens := ["soy"] }

/-- A higher-protein catalog entry listed second, so that the in-place
sort of step 1 visibly reorders the stored `protein` list. -/
def highProteinFood : Food :=
  { id := "p2", name := "chicken breast", category := "protein"
    calories_per_100g := 165, protein_g := 31, carbs_g := 0, fat_g := 4
    fiber_g := 0, vegetarian := false, vegan := false, allergens := [] }

/-- A catalog whose `protein` list is not in descending protein order. -/
def unsortedCatalog : Catalog :=
  { protein := [lowProteinFood, highProteinFood], grain := [], carb := []
    vegetable := [], fat := [] }

/-- A protein source calibrated so that the scale factor of every meal of
a 2000 kcal weight-loss plan lands inside [0.7, 1.3]. -/
def calibratedProtein : Food :=
  { id := "wp", name := "lean protein", category := "protein"
    calories_per_100g := 200, protein_g := 20, carbs_g := 0, fat_g := 5
    fiber_g := 0, vegetarian := true, vegan := true, allergens := [] }

/-- The matching grain source for the calibrated catalog. -/
def calibratedGrain : Food :=
  { id := "wg", name := "brown rice", category := "grain"
    calories_per_100g := 350, protein_g := 5, carbs_g := 50, fat_g := 2
    fiber_g := 3, vegetarian := true, vegan := true, allergens := [] }

/-- A catalog on which a 2000 kcal weight-loss plan succeeds with every
meal rescaled to its per-meal target. -/
def calibratedCatalog : Catalog :=
  { protein := [calibratedProtein], grain := [calibratedGrain], carb := []
    vegetable := [], fat := [] }

/-- A meal containing one food that carries a dairy allergen tag. -/
def dairyMeal : Meal :=
  { foods := [{ id := "f1", name := "paneer", portion_g := 100
                calories := 265, protein_g := 18, carbs_g := 1, fat_g := 20
                allergens := ["dairy"] }]
    total_calories := 265, total_protein_g := 18, total_carbs_g := 1
    total_fat_g := 20 }

/-- A conversation sitting in the weight-collection state with a goal
already stored. -/
def weightStateConv : Conv :=
  { current_state := STATE_ONBOARDING_WEIGHT
    profile := { freshProfile with fitness_goal := some "weight_loss" }
    last_interaction := 1000, message_count := 2 }

/-- A stored conversation whose last interaction lies far in the past. -/
def staleConv : Conv :=
  { current_state := STATE_SHOWING_ROADMAP
    profile := { weight_kg := some 70, height_cm := some 170, age := some 25
                 gender := "female", activity_level := some "moderate"
                 fitness_goal := some "muscle_gain", current_week := 3
                 dietary_restrictions := ["vegetarian"] }
    last_interaction := 0, message_count := 9 }

/-- A complete profile requesting muscle gain with the default gender. -/
def muscleGainProfile : Profile :=
  { weight_kg := some 70, height_cm := some 170, age := some 25
    gender := "female", activity_level := some "moderate"
    fitness_goal := some "muscle_gain", current_week := 1
    dietary_restrictions := [] }

/-- Two catalogs are selection-equivalent when every sorted view the
engine reads under pass-through restrictions agrees: `build_meal` picks
the same foods from either and leaves them selection-equivalent again. -/
def CatEquiv (c c' : Catalog) : Prop :=
  sortByDesc ltProteinKey c.protein = sortByDesc ltProteinKey c'.protein ∧
  c.grain = c'.grain ∧ c.carb = c'.carb ∧
  sortByDesc (ltPriorityFiberKey vegPriorityIds) c.vegetable
    = sortByDesc (ltPriorityFiberKey vegPriorityIds) c'.vegetable ∧
  sortByDesc ltFatPriorityKey c.fat = sortByDesc ltFatPriorityKey c'.fat

/-- Spec-side statement of claim C10's pre-validation guarantee: each of
breakfast, lunch and dinner totals at least 20 g protein and no food
portion of any meal exceeds 500 g. -/
def claimedPreValidationOk (plan : List (String × Meal)) : Bool :=
  plan.all (fun p =>
    (!(decide (p.1 = "breakfast" ∨ p.1 = "lunch" ∨ p.1 = "dinner"))
      || decide (20 ≤ p.2.total_protein_g)) &&
    p.2.foods.all (fun f => decide (f.portion_g ≤ 500)))

/-- Invariant of `build_meal`'s selection accumulator: the running
calorie total is the sum of the selected foods' calories, every stored
calorie value is a multiple of 0.1 (it came out of `round(…, 1)`), and
at most `n` foods were selected. -/
def SelectionInv (n : ℕ) (s : MealState) : Prop :=
  s.calories = (s.foods.map (fun f => f.calories)).sum ∧
  (∀ f ∈ s.foods, IsMult 1 f.calories) ∧
  s.foods.length ≤ n

/-- The per-meal hypothesis of the amended claim C2: the greedy
selection produced positive calories and the required scale factor
`T / total` either lies within the 3 % no-scale band or within the
permitted [0.7, 1.3] scaling range (this is exactly the region in which
step 5 guarantees per-meal accuracy; outside it the portions are left
unscaled and the meal can be arbitrarily far from its target, see
`C2_counterexample`). -/
def mealGuard (T mp mc mf : ℚ) (restrictions : List String)
    (cat : Catalog) : Prop :=
  0 < (buildSelection mp mc mf restrictions cat).2.calories ∧
  (|1 - T / (buildSelection mp mc mf restrictions cat).2.calories| ≤ 3/100 ∨
   (7/10 ≤ T / (buildSelection mp mc mf restrictions cat).2.calories ∧
    T / (buildSelection mp mc mf restrictions cat).2.calories ≤ 13/10))

/-- The food entry every meal of the over-dense counterexample catalog
selects. -/
def overDensePortion : PortionedFood :=
  { id := "pp", name := "protein isolate", portion_g := 50, calories := 200
    protein_g := 50, carbs_g := 0, fat_g := 0, allergens := [] }

/-- The meal `build_meal` produces from `overDenseCatalog` for each of the
four meal slots of a 2000 kcal weight-loss plan. -/
def overDenseMeal : Meal :=
  { foods := [overDensePortion], total_calories := 200
    total_protein_g := 50, total_carbs_g := 0, total_fat_g := 0 }

/-- The four-meal plan `generate_plan` produces from `overDenseCatalog`. -/
def overDensePlan : List (String × Meal) :=
  [("breakfast", overDenseMeal), ("lunch", overDenseMeal),
   ("dinner", overDenseMeal), ("snack", overDenseMeal)]

/-- The daily summary of that plan: 800 kcal against the 2000 kcal
target. -/
def overDenseSummary : DailySummary :=
  { calories := 800, protein_g := 200, carbs_g := 0, fat_g := 0
    macro_accuracy := 800 / 2000 * 100 }

/-! # Theorems -/

/-! ## Lemmas on rounding -/

theorem roundHalfEven_sub_le (q : ℚ) : |((roundHalfEven q : ℚ)) - q| ≤ 1/2 := by
  unfold roundHalfEven
  have hfl : (⌊q⌋ : ℚ) ≤ q := Int.floor_le q
  have hlt : q < (⌊q⌋ : ℚ) + 1 := Int.lt_floor_add_one q
  by_cases h1 : q - (⌊q⌋ : ℚ) < 1/2
  · simp only [h1, if_true]
    rw [abs_le]
    constructor <;> linarith
  · by_cases h2 : (1:ℚ)/2 < q - (⌊q⌋ : ℚ)
    · simp only [h1, h2, if_false, if_true]
      rw [abs_le]
      push_cast
      constructor <;> linarith
    · have heq : q - (⌊q⌋ : ℚ) = 1/2 := le_antisymm (not_lt.mp h2) (not_lt.mp h1)
      by_cases h3 : (⌊q⌋ : ℤ) % 2 = 0
      · simp only [h1, h2, h3, if_false, if_true]
        rw [abs_le]
        constructor <;> linarith
      · simp only [h1, h2, h3, if_false]
        rw [abs_le]
        push_cast
        constructor <;> linarith

theorem pyRound_sub_le (q : ℚ) (d : ℕ) :
    |pyRound q d - q| ≤ 1 / (2 * 10 ^ d) := by
  unfold pyRound
  have h10 : (0:ℚ) < 10 ^ d := by positivity
  have h := roundHalfEven_sub_le (q * 10 ^ d)
  have hrw : ((roundHalfEven (q * 10 ^ d) : ℚ)) / 10 ^ d - q
      = (((roundHalfEven (q * 10 ^ d) : ℚ)) - q * 10 ^ d) / 10 ^ d := by
    field_simp
    ring
  rw [hrw, abs_div, abs_of_pos h10, div_le_div_iff₀ h10 (by positivity)]
  calc |((roundHalfEven (q * 10 ^ d) : ℚ)) - q * 10 ^ d| * (2 * 10 ^ d)
      ≤ (1/2) * (2 * 10 ^ d) := by
        apply mul_le_mul_of_nonneg_right h (by positivity)
    _ = 1 * 10 ^ d := by ring

theorem isMult_pyRound (q : ℚ) (d : ℕ) : IsMult d (pyRound q d) :=
  ⟨roundHalfEven (q * 10 ^ d), rfl⟩

theorem isMult_zero (d : ℕ) : IsMult d 0 := ⟨0, by simp⟩

theorem isMult_add {d : ℕ} {a b : ℚ} (ha : IsMult d a) (hb : IsMult d b) :
    IsMult d (a + b) := by
  obtain ⟨k, hk⟩ := ha
  obtain ⟨m, hm⟩ := hb
  exact ⟨k + m, by rw [hk, hm]; push_cast; ring⟩

theorem roundHalfEven_intCast (n : ℤ) : roundHalfEven (n : ℚ) = n := by
  unfold roundHalfEven
  simp

theorem pyRound_eq_of_isMult {d : ℕ} {q : ℚ} (h : IsMult d q) :
    pyRound q d = q := by
  obtain ⟨k, hk⟩ := h
  have h10 : (10:ℚ) ^ d ≠ 0 := by positivity
  unfold pyRound
  rw [hk, div_mul_cancel₀ _ h10, roundHalfEven_intCast]

theorem pyInt_le (q : ℚ) (h : 0 ≤ q) : (pyInt q : ℚ) ≤ q := by
  unfold pyInt
  rw [if_pos h]
  exact Int.floor_le q

theorem lt_pyInt_add_one (q : ℚ) (h : 0 ≤ q) : q < (pyInt q : ℚ) + 1 := by
  unfold pyInt
  rw [if_pos h]
  exact_mod_cast Int.lt_floor_add_one q

theorem le_pyInt {n : ℤ} {q : ℚ} (hq : 0 ≤ q) (h : (n : ℚ) ≤ q) : n ≤ pyInt q := by
  unfold pyInt
  rw [if_pos hq]
  exact Int.le_floor.mpr h

/-! ## Lemmas on the stable descending sort -/

theorem sortedDesc_insertByDesc (lt : α → α → Bool)
    (hasym : ∀ a b, lt a b = true → lt b a = false)
    (x : α) (l : List α) (hl : SortedDesc lt l) :
    SortedDesc lt (insertByDesc lt x l) := by
  induction l with
  | nil => exact trivial
  | cons y ys ih =>
    by_cases hxy : lt x y = true
    · have hys : SortedDesc lt ys := by
        cases ys with
        | nil => trivial
        | cons z zs => exact hl.2
      have hins := ih hys
      unfold insertByDesc
      rw [hxy]
      simp only [if_true]
      cases hz : insertByDesc lt x ys with
      | nil => trivial
      | cons w ws =>
        constructor
        · cases ys with
          | nil =>
            unfold insertByDesc at hz
            cases hz
            exact hasym x y hxy
          | cons z zs =>
            unfold insertByDesc at hz
            by_cases hxz : lt x z = true
            · rw [hxz] at hz
              simp only [if_true] at hz
              cases hz
              exact hl.1
            · rw [Bool.not_eq_true] at hxz
              rw [hxz] at hz
              simp only [Bool.false_eq_true, if_false] at hz
              cases hz
              exact hasym x y hxy
        · rw [← hz]
          exact hins
    · rw [Bool.not_eq_true] at hxy
      unfold insertByDesc
      rw [hxy]
      simp only [Bool.false_eq_true, if_false]
      exact ⟨hxy, hl⟩

theorem sortedDesc_sortByDesc (lt : α → α → Bool)
    (hasym : ∀ a b, lt a b = true → lt b a = false) (l : List α) :
    SortedDesc lt (sortByDesc lt l) := by
  induction l with
  | nil => trivial
  | cons x xs ih => exact sortedDesc_insertByDesc lt hasym x _ ih

theorem sortByDesc_eq_of_sorted (lt : α → α → Bool) (l : List α)
    (hl : SortedDesc lt l) : sortByDesc lt l = l := by
  induction l with
  | nil => rfl
  | cons x xs ih =>
    have hxs : SortedDesc lt xs := by
      cases xs with
      | nil => trivial
      | cons y ys => exact hl.2
    unfold sortByDesc
    rw [ih hxs]
    cases xs with
    | nil => rfl
    | cons y ys =>
      unfold insertByDesc
      rw [hl.1]
      simp

theorem sortByDesc_idem (lt : α → α → Bool)
    (hasym : ∀ a b, lt a b = true → lt b a = false) (l : List α) :
    sortByDesc lt (sortByDesc lt l) = sortByDesc lt l :=
  sortByDesc_eq_of_sorted lt _ (sortedDesc_sortByDesc lt hasym l)

/-! ## Lemmas on the safety validator -/

theorem gate1ScanFoods_isSome (mealName : String) (restrictions : List String)
    (fs : List PortionedFood) :
    (gate1ScanFoods mealName restrictions fs).isSome
      = fs.any (fun f => restrictions.any
          (fun r => f.allergens.any (fun a => decide (a = r)))) := by
  induction fs with
  | nil => rfl
  | cons f fs ih =>
    unfold gate1ScanFoods
    by_cases h : restrictions.any
        (fun r => f.allergens.any (fun a => decide (a = r))) = true
    · rw [if_pos h]
      simp [h]
    · rw [Bool.not_eq_true] at h
      rw [if_neg (by simp [h])]
      simp [h, ih]

theorem gate1Scan_isSome (restrictions : List String)
    (plan : List (String × Meal)) :
    (gate1Scan restrictions plan).isSome
      = hasRestrictedAllergen plan restrictions := by
  induction plan with
  | nil => rfl
  | cons p rest ih =>
    obtain ⟨mealName, meal⟩ := p
    unfold gate1Scan hasRestrictedAllergen
    by_cases h : mealName = "daily_summary"
    · rw [if_pos h]
      rw [ih]
      unfold hasRestrictedAllergen
      simp [h]
    · rw [if_neg h]
      cases hscan : gate1ScanFoods mealName restrictions meal.foods with
      | some v =>
        have := gate1ScanFoods_isSome mealName restrictions meal.foods
        rw [hscan] at this
        simp only [Option.isSome_some] at this
        simp [h, ← this]
      | none =>
        have := gate1ScanFoods_isSome mealName restrictions meal.foods
        rw [hscan] at this
        simp only [Option.isSome_none] at this
        rw [ih]
        unfold hasRestrictedAllergen
        simp [h, ← this]

theorem gate1ScanFoods_shape (mealName : String) (restrictions : List String)
    (fs : List PortionedFood) (v : Violation)
    (h : gate1ScanFoods mealName restrictions fs = some v) :
    ∃ fn, v = Violation.allergen fn mealName := by
  induction fs with
  | nil => exact absurd h (by simp [gate1ScanFoods])
  | cons f fs ih =>
    unfold gate1ScanFoods at h
    by_cases hc : restrictions.any
        (fun r => f.allergens.any (fun a => decide (a = r))) = true
    · rw [if_pos hc] at h
      exact ⟨f.name, (Option.some_inj.mp h).symm⟩
    · rw [Bool.not_eq_true] at hc
      rw [if_neg (by simp [hc])] at h
      exact ih h

theorem gate1Scan_shape (restrictions : List String)
    (plan : List (String × Meal)) (v : Violation)
    (h : gate1Scan restrictions plan = some v) :
    ∃ fn mn, v = Violation.allergen fn mn := by
  induction plan with
  | nil => exact absurd h (by simp [gate1Scan])
  | cons p rest ih =>
    obtain ⟨mealName, meal⟩ := p
    unfold gate1Scan at h
    by_cases hd : mealName = "daily_summary"
    · rw [if_pos hd] at h
      exact ih h
    · rw [if_neg hd] at h
      cases hscan : gate1ScanFoods mealName restrictions meal.foods with
      | some w =>
        rw [hscan] at h
        obtain ⟨fn, hfn⟩ := gate1ScanFoods_shape mealName restrictions
          meal.foods w hscan
        exact ⟨fn, mealName, by rw [← Option.some_inj.mp h, hfn]⟩
      | none =>
        rw [hscan] at h
        exact ih h

/-! ## Claims C1 and C5: the external safety validator -/

/-- C1: for every meal plan and every restriction set,
`validate_meal_plan` never returns `ok = true` while some food of the
plan (gate 1 scans every meal entry except the skipped `daily_summary`
key) carries an allergen tag that is a member of the restriction set:
if such a food exists the result is `ok = false`, and consequently a
plan validating as `ok = true` contains no item carrying a restricted
allergen tag. -/
theorem C1_allergen_exclusion (plan : List (String × Meal))
    (dailyTarget : ℚ) (restrictions : List String) :
    ((validateMealPlan plan dailyTarget restrictions).1
      && hasRestrictedAllergen plan restrictions) = false := by
  cases h : gate1Scan restrictions plan with
  | some v =>
    unfold validateMealPlan
    rw [h]
    exact Bool.false_and _
  | none =>
    have hall := gate1Scan_isSome restrictions plan
    rw [h] at hall
    simp only [Option.isSome_none] at hall
    rw [← hall]
    exact Bool.and_false _

/-- C5: `validate_meal_plan` short-circuits on gate 1 only.  When some
food carries a restricted allergen (`hasRestrictedAllergen`, which the
gate-1 scan detects exactly), the result is `ok = false` with exactly
that one allergen violation listed; otherwise the violations are exactly
the accumulated gate-2 portion checks ([5, 50] g for names matching the
condiment/oil allowlist, [15, 600] g otherwise — `gate2Errors`)
followed by the gate-3 protein checks (≥ 15 g for breakfast, lunch,
dinner; snack excluded — `gate3Errors`), and `ok = true` iff that
accumulated list is empty. -/
theorem C5_gate_order (plan : List (String × Meal)) (dailyTarget : ℚ)
    (restrictions : List String) :
    ((gate1Scan restrictions plan).isSome
        = hasRestrictedAllergen plan restrictions) ∧
    (match gate1Scan restrictions plan with
     | some v => (∃ fn mn, v = Violation.allergen fn mn) ∧
         validateMealPlan plan dailyTarget restrictions = (false, [v])
     | none => validateMealPlan plan dailyTarget restrictions
         = ((gate2Errors plan ++ gate3Errors plan).isEmpty,
            gate2Errors plan ++ gate3Errors plan)) := by
  refine ⟨gate1Scan_isSome restrictions plan, ?_⟩
  cases h : gate1Scan restrictions plan with
  | some v =>
    refine ⟨gate1Scan_shape restrictions plan v h, ?_⟩
    unfold validateMealPlan
    rw [h]
  | none =>
    unfold validateMealPlan
    rw [h]

/-! ## Lemmas on the engine's internal validation -/

theorem listIsEmpty_append (a b : List α) :
    (a ++ b).isEmpty = (a.isEmpty && b.isEmpty) := by
  cases a with
  | nil => simp
  | cons x xs => simp

theorem enginePortion_cond_iff (q : ℚ) :
    (((q < 50 ∨ 500 < q) ∧ 50 < q) ↔ 500 < q) := by
  constructor
  · rintro ⟨hor, h50⟩
    rcases hor with h | h
    · linarith
    · exact h
  · intro h
    exact ⟨Or.inr h, by linarith⟩

theorem engineProteinErrors_isEmpty (plan : List (String × Meal)) :
    (engineProteinErrors plan).isEmpty
      = plan.all (fun p =>
          !(decide (p.1 = "breakfast" ∨ p.1 = "lunch" ∨ p.1 = "dinner"))
          || decide (20 ≤ p.2.total_protein_g)) := by
  induction plan with
  | nil => rfl
  | cons p rest ih =>
    unfold engineProteinErrors at ih ⊢
    rw [List.flatMap_cons, List.all_cons, listIsEmpty_append, ih]
    by_cases hm : p.1 = "breakfast" ∨ p.1 = "lunch" ∨ p.1 = "dinner"
    · rw [if_pos hm]
      by_cases hp : p.2.total_protein_g < 20
      · rw [if_pos hp]
        simp [hm, not_le.mpr hp]
      · rw [if_neg hp]
        simp [hm, not_lt.mp hp]
    · rw [if_neg hm]
      simp [hm]

theorem engineFoodPortion_isEmpty (mn : String) (fs : List PortionedFood) :
    (fs.flatMap (fun f =>
      if (f.portion_g < 50 ∨ 500 < f.portion_g) ∧ 50 < f.portion_g then
        [EngineViolation.unsafePortion mn f.name f.portion_g]
      else [])).isEmpty
      = fs.all (fun f => decide (f.portion_g ≤ 500)) := by
  induction fs with
  | nil => rfl
  | cons f rest ih =>
    rw [List.flatMap_cons, List.all_cons, listIsEmpty_append, ih]
    by_cases hc : (f.portion_g < 50 ∨ 500 < f.portion_g) ∧ 50 < f.portion_g
    · rw [if_pos hc]
      have := (enginePortion_cond_iff f.portion_g).mp hc
      simp [not_le.mpr this]
    · rw [if_neg hc]
      have : f.portion_g ≤ 500 := by
        by_contra hgt
        exact hc ((enginePortion_cond_iff f.portion_g).mpr (not_le.mp hgt))
      simp [this]

theorem enginePortionErrors_isEmpty (plan : List (String × Meal)) :
    (enginePortionErrors plan).isEmpty
      = plan.all (fun p => p.2.foods.all (fun f => decide (f.portion_g ≤ 500))) := by
  induction plan with
  | nil => rfl
  | cons p rest ih =>
    unfold enginePortionErrors at ih ⊢
    rw [List.flatMap_cons, List.all_cons, listIsEmpty_append, ih,
      engineFoodPortion_isEmpty]

theorem listAll_and (l : List α) (f g : α → Bool) :
    l.all (fun x => f x && g x) = (l.all f && l.all g) := by
  induction l with
  | nil => rfl
  | cons x xs ih =>
    simp only [List.all_cons, ih]
    cases f x <;> cases g x <;> cases xs.all f <;> cases xs.all g <;> rfl

theorem validateSafety_fst (plan : List (String × Meal)) (rs : List String) :
    (validateSafety plan rs).1 = claimedPreValidationOk plan := by
  show (engineProteinErrors plan ++ enginePortionErrors plan).isEmpty = _
  rw [listIsEmpty_append, engineProteinErrors_isEmpty,
    enginePortionErrors_isEmpty, claimedPreValidationOk, listAll_and]

theorem generatePlan_success_validated (cat : Catalog) (target : ℚ)
    (goal : String) (rs : List String) (plan : List (String × Meal))
    (summary : DailySummary)
    (h : (generatePlan cat target goal rs).1 = .success plan summary) :
    (validateSafety plan rs).1 = true := by
  unfold generatePlan at h
  split at h
  · exact absurd h (by simp)
  · split at h
    · exact absurd h (by simp)
    · dsimp only at h
      split at h
      · simp only at h
        obtain ⟨h1, h2⟩ := PlanResult.success.inj h
        subst h1
        assumption
      · exact absurd h (by simp)

/-! ## Claim C10: the engine's internal pre-validation -/

/-- C10: the engine's own `_validate_safety` gate is exactly the claimed
predicate — at least 20 g protein in each of breakfast, lunch and dinner
(stricter than the external validator's 15 g) and no food portion above
500 g — and every plan that `generate_plan` returns with status success
has passed it; a violating plan yields an error status (first conjunct
plus the definition of `generatePlan`), so it never reaches the external
validator or the user. -/
theorem C10_engine_prevalidation (cat : Catalog) (target : ℚ)
    (goal : String) (restrictions : List String) :
    (∀ plan, (validateSafety plan restrictions).1 = claimedPreValidationOk plan) ∧
    (match (generatePlan cat target goal restrictions).1 with
     | .success plan _ => claimedPreValidationOk plan = true
     | .error => True) := by
  refine ⟨fun plan => validateSafety_fst plan restrictions, ?_⟩
  cases hres : (generatePlan cat target goal restrictions).1 with
  | success plan summary =>
    have hv := generatePlan_success_validated cat target goal restrictions
      plan summary hres
    rw [validateSafety_fst] at hv
    exact hv
  | error => trivial

/-! ## Claim C3: the scale-to-target step of `build_meal` -/

theorem step5Scale_foods (mealCalories : ℚ) (s : MealState) :
    (step5Scale mealCalories s).foods
      = (if 0 < s.calories ∧ 3/100 < |1 - mealCalories / s.calories|
            ∧ 7/10 ≤ mealCalories / s.calories
            ∧ mealCalories / s.calories ≤ 13/10 then
           s.foods.map (scaleFood (mealCalories / s.calories))
         else s.foods) := by
  unfold step5Scale
  by_cases h0 : 0 < s.calories
  · rw [if_pos h0]
    dsimp only
    by_cases hc : 3/100 < |1 - mealCalories / s.calories|
        ∧ 7/10 ≤ mealCalories / s.calories ∧ mealCalories / s.calories ≤ 13/10
    · rw [if_pos hc, if_pos ⟨h0, hc⟩]
    · rw [if_neg hc, if_neg (by tauto)]
  · rw [if_neg h0, if_neg (by tauto)]

/-- C3: in `build_meal`'s final step the selected portions (with their
derived nutrition, via `scaleFood`) are multiplied by the scale factor
`meal_calories / total_calories` exactly when the total calories deviate
from the meal's calorie target by more than 3 % (measured as
`abs(1 - scale_factor) > 0.03`, the code's test) and that factor lies
within [0.7, 1.3] (with positive selected calories); in every other case
the returned foods are exactly the foods selected by steps 1–4. -/
theorem C3_scaling_condition (mealCalories mealProteinG mealCarbsG
    mealFatG : ℚ) (restrictions : List String) (cat : Catalog) :
    (buildMeal mealCalories mealProteinG mealCarbsG mealFatG
        restrictions cat).1.foods
      = (if 0 < (buildSelection mealProteinG mealCarbsG mealFatG
              restrictions cat).2.calories
            ∧ 3/100 < |1 - mealCalories / (buildSelection mealProteinG
                mealCarbsG mealFatG restrictions cat).2.calories|
            ∧ 7/10 ≤ mealCalories / (buildSelection mealProteinG
                mealCarbsG mealFatG restrictions cat).2.calories
            ∧ mealCalories / (buildSelection mealProteinG mealCarbsG
                mealFatG restrictions cat).2.calories ≤ 13/10 then
           ((buildSelection mealProteinG mealCarbsG mealFatG restrictions
               cat).2.foods).map (scaleFood (mealCalories /
                 (buildSelection mealProteinG mealCarbsG mealFatG
                   restrictions cat).2.calories))
         else (buildSelection mealProteinG mealCarbsG mealFatG
             restrictions cat).2.foods) := by
  unfold buildMeal
  dsimp only
  show (step5Scale mealCalories _).foods = _
  exact step5Scale_foods mealCalories _

/-! ## Claim C6: the universal reset transition -/

/-- C6: in every conversation state, a message whose trimmed,
lower-cased text is one of `"reset"`, `"restart"`, `"start over"`,
`"new"` moves the state to greeting and reinitializes the profile:
weight, height, age, activity level and fitness goal unset, dietary
restrictions empty, and gender holding only the fixed fallback default
`"female"`. -/
theorem C6_universal_reset (pg : Conv → Response × Conv) (conv : Conv)
    (message : String) (h : pyStripLower message ∈ resetKeywords) :
    (handleState pg conv message).2.current_state = STATE_GREETING ∧
    (handleState pg conv message).2.profile.weight_kg = none ∧
    (handleState pg conv message).2.profile.height_cm = none ∧
    (handleState pg conv message).2.profile.age = none ∧
    (handleState pg conv message).2.profile.activity_level = none ∧
    (handleState pg conv message).2.profile.fitness_goal = none ∧
    (handleState pg conv message).2.profile.dietary_restrictions = [] ∧
    (handleState pg conv message).2.profile.gender = "female" := by
  have hc : resetKeywords.any (fun k => decide (k = pyStripLower message)) = true := by
    rw [List.any_eq_true]
    exact ⟨pyStripLower message, h, by simp⟩
  unfold handleState
  simp only [hc]
  exact ⟨rfl, rfl, rfl, rfl, rfl, rfl, rfl, rfl⟩

/-- Witness for C6 at a concrete conversation and the message
`"  RESET "`. -/
theorem C6_universal_reset_witness :
    (handleState pgStub weightStateConv "  RESET ").2.current_state
        = STATE_GREETING ∧
    (handleState pgStub weightStateConv "  RESET ").2.profile.weight_kg = none ∧
    (handleState pgStub weightStateConv "  RESET ").2.profile.height_cm = none ∧
    (handleState pgStub weightStateConv "  RESET ").2.profile.age = none ∧
    (handleState pgStub weightStateConv "  RESET ").2.profile.activity_level
        = none ∧
    (handleState pgStub weightStateConv "  RESET ").2.profile.fitness_goal
        = none ∧
    (handleState pgStub weightStateConv
        "  RESET ").2.profile.dietary_restrictions = [] ∧
    (handleState pgStub weightStateConv "  RESET ").2.profile.gender
        = "female" :=
  C6_universal_reset pgStub weightStateConv "  RESET " (by decide)

/-! ## Claim C9: silent session expiry -/

/-- C9: for every stored conversation whose `last_interaction` lies more
than 7 days (604800 s) before the current access, the next access forces
`current_state` back to the greeting state while leaving the whole
profile record (weight, height, age, gender, activity level, fitness
goal, dietary restrictions, current week) unchanged. -/
theorem C9_session_expiry (store : List (String × Conv)) (uid : String)
    (now : ℚ) (c : Conv) (hfind : lookupConv store uid = some c)
    (hstale : 7 * 86400 < now - c.last_interaction) :
    (getUserConversation store uid now).1.current_state = STATE_GREETING ∧
    (getUserConversation store uid now).1.profile = c.profile := by
  unfold getUserConversation
  simp only [hfind, Option.isSome_some, if_true]
  rw [if_pos hstale]
  exact ⟨rfl, rfl⟩

/-- Witness for C9: a concrete stale conversation record. -/
theorem C9_session_expiry_witness :
    (getUserConversation [("u7", staleConv)] "u7" 1000000).1.current_state
        = STATE_GREETING ∧
    (getUserConversation [("u7", staleConv)] "u7" 1000000).1.profile
        = staleConv.profile :=
  C9_session_expiry [("u7", staleConv)] "u7" 1000000 staleConv (by decide)
    (by norm_num [staleConv])

/-! ## Claim C7: rejection of digit-free numeric input -/

theorem mem_removeUnitsAux {c : Char} :
    ∀ (fuel : ℕ) (l : List Char), c ∈ removeUnitsAux fuel l → c ∈ l := by
  intro fuel
  induction fuel with
  | zero => intro l h; exact h
  | succ n ih =>
    intro l h
    cases l with
    | nil => exact absurd h (by simp [removeUnitsAux])
    | cons x xs =>
      unfold removeUnitsAux at h
      cases hf : unitPatterns.find? (fun p => lowerPrefMatch p.data (x :: xs)) with
      | some p =>
        rw [hf] at h
        exact List.drop_subset _ _ (ih _ h)
      | none =>
        rw [hf] at h
        rcases List.mem_cons.mp h with hc | hmem
        · exact hc ▸ List.mem_cons_self _ _
        · exact List.mem_cons_of_mem _ (ih _ hmem)

theorem mem_removeUnits {c : Char} {l : List Char}
    (h : c ∈ removeUnits l) : c ∈ l :=
  mem_removeUnitsAux l.length l h

theorem mem_pyStripList {c : Char} {l : List Char}
    (h : c ∈ pyStripList l) : c ∈ l := by
  unfold pyStripList at h
  rw [List.mem_reverse] at h
  have h1 : c ∈ (l.dropWhile pyIsSpace).reverse :=
    (List.dropWhile_suffix pyIsSpace).subset h
  rw [List.mem_reverse] at h1
  exact (List.dropWhile_suffix pyIsSpace).subset h1

theorem findFirstNumber_eq_none {l : List Char}
    (h : ∀ c ∈ l, c.isDigit = false) : findFirstNumber l = none := by
  induction l with
  | nil => rfl
  | cons c cs ih =>
    unfold findFirstNumber
    rw [h c (List.mem_cons_self c cs)]
    exact ih (fun x hx => h x (List.mem_cons_of_mem c hx))

theorem extractNumber_eq_none {text : String}
    (h : ∀ c ∈ text.data, c.isDigit = false) : extractNumber text = none := by
  unfold extractNumber
  exact findFirstNumber_eq_none
    (fun c hc => h c (mem_pyStripList (mem_removeUnits hc)))

/-- C7, amended: for every input string containing no digit character
(word numbers like `"seventy"` included), the shared numeric-extraction
routine returns no value; and — provided the message is not one of the
four universal reset keywords, which take priority and reset the
conversation instead — each numeric-field state (weight, height, age)
answers with its re-prompt and leaves the conversation record entirely
unchanged (no value stored, no state change). -/
theorem C7_digit_free_rejected (pg : Conv → Response × Conv) (conv : Conv)
    (message : String)
    (hnd : ∀ c ∈ message.data, c.isDigit = false)
    (hnr : resetKeywords.any (fun k => decide (k = pyStripLower message)) = false) :
    extractNumber message = none ∧
    (conv.current_state = STATE_ONBOARDING_WEIGHT →
      handleState pg conv message = (.needNumberWeight, conv)) ∧
    (conv.current_state = STATE_ONBOARDING_HEIGHT →
      handleState pg conv message = (.needNumberHeight, conv)) ∧
    (conv.current_state = STATE_ONBOARDING_AGE →
      handleState pg conv message = (.needNumberAge, conv)) := by
  have hen := extractNumber_eq_none hnd
  refine ⟨hen, ?_, ?_, ?_⟩
  · intro hst
    unfold handleState
    rw [hst]
    simp only [hnr, Bool.false_eq_true, if_false, hen]
    rw [if_neg (by decide), if_neg (by decide), if_pos trivial]
  · intro hst
    unfold handleState
    rw [hst]
    simp only [hnr, Bool.false_eq_true, if_false, hen]
    rw [if_neg (by decide), if_neg (by decide), if_neg (by decide),
      if_pos trivial]
  · intro hst
    unfold handleState
    rw [hst]
    simp only [hnr, Bool.false_eq_true, if_false, hen]
    rw [if_neg (by decide), if_neg (by decide), if_neg (by decide),
      if_neg (by decide), if_pos trivial]

/-- Witness for C7 (amended): the digit-free word number `"seventy"` in
the weight state yields the weight re-prompt and an unchanged
conversation. -/
theorem C7_digit_free_rejected_witness :
    extractNumber "seventy" = none ∧
    handleState pgStub weightStateConv "seventy"
      = (.needNumberWeight, weightStateConv) := by
  have h := C7_digit_free_rejected pgStub weightStateConv "seventy"
    (by decide) (by decide)
  exact ⟨h.1, h.2.1 rfl⟩

/-- Counterexample to C7 as stated: `"new"` contains no digit character,
yet in the weight state it is not answered with a re-prompt — the
universal reset takes priority, moving the state to greeting and
reinitializing the profile (the stored goal is wiped). -/
theorem C7_counterexample :
    (∀ c ∈ "new".data, c.isDigit = false) ∧
    weightStateConv.current_state = STATE_ONBOARDING_WEIGHT ∧
    (handleState pgStub weightStateConv "new").1 = Response.startingFresh ∧
    (handleState pgStub weightStateConv "new").2.current_state
      = STATE_GREETING ∧
    weightStateConv.profile.fitness_goal = some "weight_loss" ∧
    (handleState pgStub weightStateConv "new").2.profile.fitness_goal
      = none := by
  decide

/-! ## Claim C8: the muscle-gain calorie floor -/

/-- C8: for every raw predictor output and every default-gender
(`"female"`) profile whose goal is `muscle_gain`, the target calories
handed to plan generation (the adapter passes the predictor's value
through unchanged) satisfy the upstream floor: the predictor raises any
lower prediction to its goal- and gender-specific floor (2400 kcal here,
hence at least the claimed 2200 kcal), and plan generation receives
exactly that value. -/
theorem C8_muscle_gain_floor (rawWeight rawCalories rawExercise : ℚ)
    (profile : Profile)
    (hgoal : profile.fitness_goal = some "muscle_gain")
    (hgender : profile.gender = "female") :
    2200 ≤ (adaptModel2ToModel3
        (roadmapPredict rawWeight rawCalories rawExercise profile)
        profile).target_calories ∧
    (adaptModel2ToModel3
        (roadmapPredict rawWeight rawCalories rawExercise profile)
        profile).target_calories
      = (roadmapPredict rawWeight rawCalories rawExercise profile).target_calories := by
  refine ⟨?_, rfl⟩
  show (2200 : ℤ) ≤ (roadmapPredict rawWeight rawCalories rawExercise
    profile).target_calories
  unfold roadmapPredict
  rw [hgoal, hgender]
  dsimp only
  rw [if_pos (by decide)]
  rw [if_neg (by decide : ¬(("female" : String) = "male"))]
  split_ifs with h1 h2 h3 h4 h5 <;>
    exact le_pyInt (by linarith) (by push_cast; linarith)

/-- Witness for C8: a concrete muscle-gain profile and a raw prediction
of 1800 kcal (below the floor). -/
theorem C8_muscle_gain_floor_witness :
    2200 ≤ (adaptModel2ToModel3
        (roadmapPredict 70 1800 30 muscleGainProfile)
        muscleGainProfile).target_calories ∧
    (adaptModel2ToModel3
        (roadmapPredict 70 1800 30 muscleGainProfile)
        muscleGainProfile).target_calories
      = (roadmapPredict 70 1800 30 muscleGainProfile).target_calories :=
  C8_muscle_gain_floor 70 1800 30 muscleGainProfile rfl rfl

/-! ## Evaluation helpers for `pyRound` and `pyInt` -/

theorem roundHalfEven_eq_low {q : ℚ} {k : ℤ} (h1 : (k:ℚ) ≤ q)
    (h2 : q - k < 1/2) : roundHalfEven q = k := by
  have hf : ⌊q⌋ = k := Int.floor_eq_iff.mpr ⟨h1, by linarith⟩
  unfold roundHalfEven
  rw [hf, if_pos h2]

theorem roundHalfEven_eq_high {q : ℚ} {k : ℤ} (h1 : (k:ℚ) ≤ q)
    (h3 : q < k + 1) (h2 : 1/2 < q - k) : roundHalfEven q = k + 1 := by
  have hf : ⌊q⌋ = k := Int.floor_eq_iff.mpr ⟨h1, by exact_mod_cast h3⟩
  unfold roundHalfEven
  rw [hf, if_neg (by linarith), if_pos h2]

theorem pyRound_eq_low {q : ℚ} {d : ℕ} {k : ℤ} (h1 : (k:ℚ) ≤ q * 10 ^ d)
    (h2 : q * 10 ^ d - k < 1/2) : pyRound q d = (k:ℚ) / 10 ^ d := by
  unfold pyRound
  rw [roundHalfEven_eq_low h1 h2]

theorem pyRound_eq_high {q : ℚ} {d : ℕ} {k : ℤ} (h1 : (k:ℚ) ≤ q * 10 ^ d)
    (h3 : q * 10 ^ d < k + 1) (h2 : 1/2 < q * 10 ^ d - k) :
    pyRound q d = ((k:ℚ) + 1) / 10 ^ d := by
  unfold pyRound
  rw [roundHalfEven_eq_high h1 h3 h2]
  push_cast
  ring_nf

theorem pyInt_intCast (n : ℤ) : pyInt ((n:ℚ)) = n := by
  unfold pyInt
  split
  · exact Int.floor_intCast n
  · exact Int.ceil_intCast n

theorem pyRound_eq_self {d : ℕ} {q : ℚ} {k : ℤ} (h : q * 10 ^ d = (k:ℚ)) :
    pyRound q d = q := by
  apply pyRound_eq_of_isMult
  refine ⟨k, ?_⟩
  rw [← h]
  field_simp

/-! ## Catalog components of the selection steps -/

theorem step1Protein_cat (mp : ℚ) (rs : List String) (cs : Catalog × MealState) :
    (step1Protein mp rs cs).1
      = (if isPassthroughRestrictions rs = true then
          { cs.1 with protein := sortByDesc ltProteinKey (filterByRestrictions cs.1.protein rs) }
         else cs.1) := by
  unfold step1Protein
  cases h : sortByDesc ltProteinKey (filterByRestrictions cs.1.protein rs) with
  | nil => simp [h]
  | cons b r => simp [h]

theorem step2Grain_cat (mc : ℚ) (rs : List String) (cs : Catalog × MealState) :
    (step2Grain mc rs cs).1 = cs.1 := by
  unfold step2Grain
  cases h : sortByDesc (ltPriorityFiberKey complexCarbs)
      (filterByRestrictions (cs.1.grain ++ cs.1.carb) rs) with
  | nil => simp [h]
  | cons b r => simp [h]

theorem step3Vegetable_cat (rs : List String) (cs : Catalog × MealState) :
    (step3Vegetable rs cs).1
      = (if isPassthroughRestrictions rs = true then
          { cs.1 with vegetable := sortByDesc (ltPriorityFiberKey vegPriorityIds) (filterByRestrictions cs.1.vegetable rs) }
         else cs.1) := by
  unfold step3Vegetable
  cases h : sortByDesc (ltPriorityFiberKey vegPriorityIds)
      (filterByRestrictions cs.1.vegetable rs) with
  | nil => simp [h]
  | cons b r => simp [h]

theorem step4Fat_cat (mf : ℚ) (rs : List String) (cs : Catalog × MealState) :
    (step4Fat mf rs cs).1
      = (if cs.2.fat_g < mf * (7/10) then
          (if isPassthroughRestrictions rs = true then
            { cs.1 with fat := sortByDesc ltFatPriorityKey (filterByRestrictions cs.1.fat rs) }
           else cs.1)
         else cs.1) := by
  unfold step4Fat
  by_cases hc : cs.2.fat_g < mf * (7/10)
  · rw [if_pos hc, if_pos hc]
    cases h : sortByDesc ltFatPriorityKey (filterByRestrictions cs.1.fat rs) with
    | nil => simp [h]
    | cons b r => simp [h]
  · rw [if_neg hc, if_neg hc]

/-! ## Pointwise evaluation lemmas for the selection steps -/

theorem step1Protein_eval (mp : ℚ) (rs : List String)
    (cs : Catalog × MealState) (best : Food) (rest : List Food)
    (hsort : sortByDesc ltProteinKey
      (filterByRestrictions cs.1.protein rs) = best :: rest) :
    step1Protein mp rs cs
      = ((if isPassthroughRestrictions rs = true then
            { cs.1 with protein := best :: rest } else cs.1),
         addFood cs.2 (mkPortionedFood best
           (min (max ((mp * (6/10) / best.protein_g) * 100) 50) 500)
           (calculatePortionCalories best
             (min (max ((mp * (6/10) / best.protein_g) * 100) 50) 500)))) := by
  simp only [step1Protein, hsort]

theorem step1Protein_nil (mp : ℚ) (rs : List String)
    (cs : Catalog × MealState)
    (hsort : sortByDesc ltProteinKey
      (filterByRestrictions cs.1.protein rs) = []) :
    step1Protein mp rs cs
      = ((if isPassthroughRestrictions rs = true then
            { cs.1 with protein := [] } else cs.1), cs.2) := by
  simp only [step1Protein, hsort]

theorem step2Grain_eval (mc : ℚ) (rs : List String)
    (cs : Catalog × MealState) (best : Food) (rest : List Food)
    (hsort : sortByDesc (ltPriorityFiberKey complexCarbs)
      (filterByRestrictions (cs.1.grain ++ cs.1.carb) rs) = best :: rest) :
    step2Grain mc rs cs
      = (cs.1, addFood cs.2 (mkPortionedFood best
          (min (max ((max (mc - cs.2.carbs_g) 0 / best.carbs_g) * 100) 50) 500)
          (calculatePortionCalories best
            (min (max ((max (mc - cs.2.carbs_g) 0 / best.carbs_g) * 100) 50)
              500)))) := by
  simp only [step2Grain, hsort]

theorem step2Grain_nil (mc : ℚ) (rs : List String) (cs : Catalog × MealState)
    (hsort : sortByDesc (ltPriorityFiberKey complexCarbs)
      (filterByRestrictions (cs.1.grain ++ cs.1.carb) rs) = []) :
    step2Grain mc rs cs = cs := by
  simp only [step2Grain, hsort]

theorem step3Vegetable_nil (rs : List String) (cs : Catalog × MealState)
    (hsort : sortByDesc (ltPriorityFiberKey vegPriorityIds)
      (filterByRestrictions cs.1.vegetable rs) = []) :
    step3Vegetable rs cs
      = ((if isPassthroughRestrictions rs = true then
            { cs.1 with vegetable := [] } else cs.1), cs.2) := by
  simp only [step3Vegetable, hsort]

theorem step4Fat_skip (mf : ℚ) (rs : List String) (cs : Catalog × MealState)
    (h : ¬(cs.2.fat_g < mf * (7/10))) : step4Fat mf rs cs = cs := by
  unfold step4Fat
  rw [if_neg h]

theorem step4Fat_nil (mf : ℚ) (rs : List String) (cs : Catalog × MealState)
    (hc : cs.2.fat_g < mf * (7/10))
    (hsort : sortByDesc ltFatPriorityKey
      (filterByRestrictions cs.1.fat rs) = []) :
    step4Fat mf rs cs
      = ((if isPassthroughRestrictions rs = true then
            { cs.1 with fat := [] } else cs.1), cs.2) := by
  unfold step4Fat
  rw [if_pos hc]
  simp only [hsort]

/-! ## Claim C4: purity of `build_meal` -/

/-- Counterexample to C4's purity part: with empty restrictions,
`_filter_by_restrictions` returns the catalog's own `protein` list and
step 1's in-place sort reorders it, so `build_meal` mutates the shared
catalog: afterwards the stored `protein` list is permuted. -/
theorem C4_counterexample :
    (buildMeal 0 0 0 0 [] unsortedCatalog).2 ≠ unsortedCatalog ∧
    (buildMeal 0 0 0 0 [] unsortedCatalog).2.protein
      = [highProteinFood, lowProteinFood] ∧
    unsortedCatalog.protein = [lowProteinFood, highProteinFood] := by
  have hsort : sortByDesc ltProteinKey
      (filterByRestrictions unsortedCatalog.protein [])
      = [highProteinFood, lowProteinFood] := by decide
  have h1 := step1Protein_eval 0 [] (unsortedCatalog, emptyMealState)
    highProteinFood [lowProteinFood] hsort
  have hport : min (max ((0 * (6/10) / highProteinFood.protein_g) * 100) 50)
      500 = (50:ℚ) := by
    simp only [highProteinFood]
    norm_num
  have hnut : calculatePortionCalories highProteinFood 50
      = { calories := 165/2, protein_g := 31/2, carbs_g := 0, fat_g := 2 } := by
    simp only [calculatePortionCalories, highProteinFood]
    congr 1
    · rw [pyRound_eq_self
        (show ((165:ℚ) * (50/100)) * 10 ^ 1 = ((825:ℤ):ℚ) by norm_num)]
      norm_num
    · rw [pyRound_eq_self
        (show ((31:ℚ) * (50/100)) * 10 ^ 1 = ((155:ℤ):ℚ) by norm_num)]
      norm_num
    · rw [pyRound_eq_self
        (show ((0:ℚ) * (50/100)) * 10 ^ 1 = ((0:ℤ):ℚ) by norm_num)]
      norm_num
    · rw [pyRound_eq_self
        (show ((4:ℚ) * (50/100)) * 10 ^ 1 = ((20:ℤ):ℚ) by norm_num)]
      norm_num
  have hstate : (addFood emptyMealState (mkPortionedFood highProteinFood 50
      (calculatePortionCalories highProteinFood 50))).fat_g = 2 := by
    simp only [addFood, emptyMealState, mkPortionedFood, hnut]
    norm_num
  have hcat : (buildMeal 0 0 0 0 [] unsortedCatalog).2
      = { protein := [highProteinFood, lowProteinFood], grain := [], carb := [],
          vegetable := [], fat := [] } := by
    show (buildSelection 0 0 0 [] unsortedCatalog).1 = _
    unfold buildSelection
    rw [h1, hport]
    rw [if_pos (by decide : isPassthroughRestrictions ([] : List String) = true)]
    dsimp only
    rw [step2Grain_nil 0 [] _ (by rfl)]
    rw [step3Vegetable_nil [] _ (by rfl),
      if_pos (by decide : isPassthroughRestrictions ([] : List String) = true)]
    dsimp only
    rw [step4Fat_skip 0 [] _ (by rw [hstate]; norm_num)]
    rfl
  refine ⟨?_, by rw [hcat], rfl⟩
  rw [hcat]
  intro h
  have hp := congrArg Catalog.protein h
  simp only at hp
  have := congrArg List.head? hp
  simp only [List.head?] at this
  have hid := congrArg Food.id (Option.some_inj.mp this)
  simp [highProteinFood, lowProteinFood] at hid

/-! ## Selection-equivalence machinery for claim C4 -/

theorem filterByRestrictions_pass {rs : List String}
    (hpass : isPassthroughRestrictions rs = true) (foods : List Food) :
    filterByRestrictions foods rs = foods := by
  unfold filterByRestrictions
  rw [if_pos hpass]

theorem ltProteinKey_asym : ∀ a b : Food,
    ltProteinKey a b = true → ltProteinKey b a = false := by
  intro a b h
  simp only [ltProteinKey, decide_eq_true_eq] at h
  simp only [ltProteinKey, decide_eq_false_iff_not]
  exact lt_asymm h

theorem ltPriorityFiberKey_asym (ids : List String) : ∀ a b : Food,
    ltPriorityFiberKey ids a b = true → ltPriorityFiberKey ids b a = false := by
  intro a b h
  cases hA : idInList ids a <;> cases hB : idInList ids b <;>
    simp only [ltPriorityFiberKey, hA, hB, Bool.not_false, Bool.not_true,
      Bool.true_and, Bool.false_and, Bool.and_true, Bool.and_false,
      Bool.false_or, Bool.true_or, Bool.or_false, beq_self_eq_true,
      Bool.true_and, decide_eq_true_eq, decide_eq_false_iff_not] at h ⊢ <;>
    first
      | exact lt_asymm h
      | simp_all

theorem ltFatPriorityKey_asym : ∀ a b : Food,
    ltFatPriorityKey a b = true → ltFatPriorityKey b a = false := by
  intro a b h
  cases hA : idInList fatPriorityIds a <;>
    cases hB : idInList fatPriorityIds b <;>
    simp_all [ltFatPriorityKey]

theorem catEquiv_refl (c : Catalog) : CatEquiv c c :=
  ⟨rfl, rfl, rfl, rfl, rfl⟩

theorem catEquiv_trans {a b c : Catalog} (h1 : CatEquiv a b)
    (h2 : CatEquiv b c) : CatEquiv a c :=
  ⟨h1.1.trans h2.1, h1.2.1.trans h2.2.1, h1.2.2.1.trans h2.2.2.1,
   h1.2.2.2.1.trans h2.2.2.2.1, h1.2.2.2.2.trans h2.2.2.2.2⟩

theorem step1Protein_equiv (mp : ℚ) (rs : List String)
    (hpass : isPassthroughRestrictions rs = true)
    (cs cs' : Catalog × MealState) (hs2 : cs.2 = cs'.2)
    (h : CatEquiv cs.1 cs'.1) :
    (step1Protein mp rs cs).2 = (step1Protein mp rs cs').2 ∧
    CatEquiv (step1Protein mp rs cs).1 (step1Protein mp rs cs').1 := by
  obtain ⟨c, s⟩ := cs
  obtain ⟨c', s'⟩ := cs'
  simp only at hs2 h
  subst hs2
  have hs : sortByDesc ltProteinKey (filterByRestrictions c.protein rs)
      = sortByDesc ltProteinKey (filterByRestrictions c'.protein rs) := by
    rw [filterByRestrictions_pass hpass, filterByRestrictions_pass hpass]
    exact h.1
  unfold step1Protein
  simp only [hs]
  cases hsort : sortByDesc ltProteinKey (filterByRestrictions c'.protein rs) with
  | nil =>
    refine ⟨rfl, ?_⟩
    rw [if_pos hpass, if_pos hpass]
    exact ⟨rfl, h.2.1, h.2.2.1, h.2.2.2.1, h.2.2.2.2⟩
  | cons best rest =>
    refine ⟨rfl, ?_⟩
    rw [if_pos hpass, if_pos hpass]
    exact ⟨rfl, h.2.1, h.2.2.1, h.2.2.2.1, h.2.2.2.2⟩

theorem step2Grain_equiv (mc : ℚ) (rs : List String)
    (hpass : isPassthroughRestrictions rs = true)
    (cs cs' : Catalog × MealState) (hs2 : cs.2 = cs'.2)
    (h : CatEquiv cs.1 cs'.1) :
    (step2Grain mc rs cs).2 = (step2Grain mc rs cs').2 ∧
    CatEquiv (step2Grain mc rs cs).1 (step2Grain mc rs cs').1 := by
  obtain ⟨c, s⟩ := cs
  obtain ⟨c', s'⟩ := cs'
  simp only at hs2 h
  subst hs2
  have hs : sortByDesc (ltPriorityFiberKey complexCarbs)
        (filterByRestrictions (c.grain ++ c.carb) rs)
      = sortByDesc (ltPriorityFiberKey complexCarbs)
        (filterByRestrictions (c'.grain ++ c'.carb) rs) := by
    rw [filterByRestrictions_pass hpass, filterByRestrictions_pass hpass,
      h.2.1, h.2.2.1]
  unfold step2Grain
  simp only [hs]
  cases hsort : sortByDesc (ltPriorityFiberKey complexCarbs)
      (filterByRestrictions (c'.grain ++ c'.carb) rs) with
  | nil => exact ⟨rfl, h⟩
  | cons best rest => exact ⟨rfl, h⟩

theorem step3Vegetable_equiv (rs : List String)
    (hpass : isPassthroughRestrictions rs = true)
    (cs cs' : Catalog × MealState) (hs2 : cs.2 = cs'.2)
    (h : CatEquiv cs.1 cs'.1) :
    (step3Vegetable rs cs).2 = (step3Vegetable rs cs').2 ∧
    CatEquiv (step3Vegetable rs cs).1 (step3Vegetable rs cs').1 := by
  obtain ⟨c, s⟩ := cs
  obtain ⟨c', s'⟩ := cs'
  simp only at hs2 h
  subst hs2
  have hs : sortByDesc (ltPriorityFiberKey vegPriorityIds)
        (filterByRestrictions c.vegetable rs)
      = sortByDesc (ltPriorityFiberKey vegPriorityIds)
        (filterByRestrictions c'.vegetable rs) := by
    rw [filterByRestrictions_pass hpass, filterByRestrictions_pass hpass]
    exact h.2.2.2.1
  unfold step3Vegetable
  simp only [hs]
  cases hsort : sortByDesc (ltPriorityFiberKey vegPriorityIds)
      (filterByRestrictions c'.vegetable rs) with
  | nil =>
    refine ⟨rfl, ?_⟩
    rw [if_pos hpass, if_pos hpass]
    exact ⟨h.1, h.2.1, h.2.2.1, rfl, h.2.2.2.2⟩
  | cons best rest =>
    refine ⟨rfl, ?_⟩
    rw [if_pos hpass, if_pos hpass]
    exact ⟨h.1, h.2.1, h.2.2.1, rfl, h.2.2.2.2⟩

theorem step4Fat_equiv (mf : ℚ) (rs : List String)
    (hpass : isPassthroughRestrictions rs = true)
    (cs cs' : Catalog × MealState) (hs2 : cs.2 = cs'.2)
    (h : CatEquiv cs.1 cs'.1) :
    (step4Fat mf rs cs).2 = (step4Fat mf rs cs').2 ∧
    CatEquiv (step4Fat mf rs cs).1 (step4Fat mf rs cs').1 := by
  obtain ⟨c, s⟩ := cs
  obtain ⟨c', s'⟩ := cs'
  simp only at hs2 h
  subst hs2
  by_cases hc : s.fat_g < mf * (7/10)
  · have hs : sortByDesc ltFatPriorityKey (filterByRestrictions c.fat rs)
        = sortByDesc ltFatPriorityKey (filterByRestrictions c'.fat rs) := by
      rw [filterByRestrictions_pass hpass, filterByRestrictions_pass hpass]
      exact h.2.2.2.2
    unfold step4Fat
    rw [if_pos hc, if_pos hc]
    simp only [hs]
    cases hsort : sortByDesc ltFatPriorityKey
        (filterByRestrictions c'.fat rs) with
    | nil =>
      refine ⟨rfl, ?_⟩
      rw [if_pos hpass, if_pos hpass]
      exact ⟨h.1, h.2.1, h.2.2.1, h.2.2.2.1, rfl⟩
    | cons best rest =>
      refine ⟨rfl, ?_⟩
      rw [if_pos hpass, if_pos hpass]
      exact ⟨h.1, h.2.1, h.2.2.1, h.2.2.2.1, rfl⟩
  · rw [step4Fat_skip mf rs _ hc, step4Fat_skip mf rs _ hc]
    exact ⟨rfl, h⟩

theorem buildMeal_equiv (mcal mp mc mf : ℚ) (rs : List String)
    (hpass : isPassthroughRestrictions rs = true)
    {c c' : Catalog} (h : CatEquiv c c') :
    (buildMeal mcal mp mc mf rs c).1 = (buildMeal mcal mp mc mf rs c').1 ∧
    CatEquiv (buildMeal mcal mp mc mf rs c).2 (buildMeal mcal mp mc mf rs c').2 := by
  obtain ⟨e1, q1⟩ := step1Protein_equiv mp rs hpass (c, emptyMealState)
    (c', emptyMealState) rfl h
  obtain ⟨e2, q2⟩ := step2Grain_equiv mc rs hpass _ _ e1 q1
  obtain ⟨e3, q3⟩ := step3Vegetable_equiv rs hpass _ _ e2 q2
  obtain ⟨e4, q4⟩ := step4Fat_equiv mf rs hpass _ _ e3 q3
  unfold buildMeal buildSelection
  dsimp only
  exact ⟨by rw [e4], q4⟩

theorem buildMeal_cat_equiv_self (mcal mp mc mf : ℚ) (rs : List String)
    (hpass : isPassthroughRestrictions rs = true) (c : Catalog) :
    CatEquiv (buildMeal mcal mp mc mf rs c).2 c := by
  have hP := sortByDesc_idem ltProteinKey ltProteinKey_asym
  have hV := sortByDesc_idem (ltPriorityFiberKey vegPriorityIds)
    (ltPriorityFiberKey_asym vegPriorityIds)
  have hF := sortByDesc_idem ltFatPriorityKey ltFatPriorityKey_asym
  unfold buildMeal buildSelection
  dsimp only
  rw [step4Fat_cat]
  by_cases hc : (step3Vegetable rs (step2Grain mc rs
      (step1Protein mp rs (c, emptyMealState)))).2.fat_g < mf * (7/10)
  · rw [if_pos hc, if_pos hpass]
    rw [step3Vegetable_cat, if_pos hpass, step2Grain_cat, step1Protein_cat,
      if_pos hpass]
    rw [filterByRestrictions_pass hpass, filterByRestrictions_pass hpass,
      filterByRestrictions_pass hpass]
    exact ⟨hP c.protein, rfl, rfl, hV c.vegetable, hF c.fat⟩
  · rw [if_neg hc]
    rw [step3Vegetable_cat, if_pos hpass, step2Grain_cat, step1Protein_cat,
      if_pos hpass]
    rw [filterByRestrictions_pass hpass, filterByRestrictions_pass hpass]
    exact ⟨hP c.protein, rfl, rfl, hV c.vegetable, rfl⟩

theorem buildMeal_cat_nopass (mcal mp mc mf : ℚ) (rs : List String)
    (hnp : ¬ isPassthroughRestrictions rs = true) (c : Catalog) :
    (buildMeal mcal mp mc mf rs c).2 = c := by
  unfold buildMeal buildSelection
  dsimp only
  rw [step4Fat_cat]
  by_cases hc : (step3Vegetable rs (step2Grain mc rs
      (step1Protein mp rs (c, emptyMealState)))).2.fat_g < mf * (7/10)
  · rw [if_pos hc, if_neg hnp]
    rw [step3Vegetable_cat, if_neg hnp, step2Grain_cat, step1Protein_cat,
      if_neg hnp]
  · rw [if_neg hc]
    rw [step3Vegetable_cat, if_neg hnp, step2Grain_cat, step1Protein_cat,
      if_neg hnp]

theorem generatePlan_congr (target : ℚ) (goal : String) (rs : List String)
    (hpass : isPassthroughRestrictions rs = true)
    {c c' : Catalog} (h : CatEquiv c c') :
    (generatePlan c target goal rs).1 = (generatePlan c' target goal rs).1 ∧
    CatEquiv (generatePlan c target goal rs).2
      (generatePlan c' target goal rs).2 := by
  by_cases hg : (macroRatios goal).isNone = true
  · unfold generatePlan
    rw [if_pos hg, if_pos hg]
    exact ⟨rfl, h⟩
  · have m := calculateMacros target goal
    have h1 := buildMeal_equiv ((pyInt (target * (25/100)) : ℚ))
      ((calculateMacros target goal).protein_g * (25/100))
      ((calculateMacros target goal).carbs_g * (25/100))
      ((calculateMacros target goal).fat_g * (25/100)) rs hpass h
    have h2 := buildMeal_equiv ((pyInt (target * (35/100)) : ℚ))
      ((calculateMacros target goal).protein_g * (35/100))
      ((calculateMacros target goal).carbs_g * (35/100))
      ((calculateMacros target goal).fat_g * (35/100)) rs hpass h1.2
    have h3 := buildMeal_equiv ((pyInt (target * (30/100)) : ℚ))
      ((calculateMacros target goal).protein_g * (30/100))
      ((calculateMacros target goal).carbs_g * (30/100))
      ((calculateMacros target goal).fat_g * (30/100)) rs hpass h2.2
    have h4 := buildMeal_equiv ((pyInt (target * (15/100)) : ℚ))
      ((calculateMacros target goal).protein_g * (15/100))
      ((calculateMacros target goal).carbs_g * (15/100))
      ((calculateMacros target goal).fat_g * (15/100)) rs hpass h3.2
    unfold generatePlan
    rw [if_neg hg, if_neg hg]
    dsimp only
    rw [h1.1, h2.1, h3.1, h4.1]
    by_cases h0 : target = 0
    · rw [if_pos h0, if_pos h0]
      exact ⟨rfl, h4.2⟩
    · rw [if_neg h0, if_neg h0]
      constructor
      · split <;> rfl
      · split <;> exact h4.2

theorem generatePlan_self_equiv (target : ℚ) (goal : String)
    (rs : List String) (hpass : isPassthroughRestrictions rs = true)
    (c : Catalog) :
    CatEquiv (generatePlan c target goal rs).2 c := by
  by_cases hg : (macroRatios goal).isNone = true
  · unfold generatePlan
    rw [if_pos hg]
    exact catEquiv_refl c
  · have q1 := buildMeal_cat_equiv_self ((pyInt (target * (25/100)) : ℚ))
      ((calculateMacros target goal).protein_g * (25/100))
      ((calculateMacros target goal).carbs_g * (25/100))
      ((calculateMacros target goal).fat_g * (25/100)) rs hpass c
    have q2 := buildMeal_cat_equiv_self ((pyInt (target * (35/100)) : ℚ))
      ((calculateMacros target goal).protein_g * (35/100))
      ((calculateMacros target goal).carbs_g * (35/100))
      ((calculateMacros target goal).fat_g * (35/100)) rs hpass
      ((buildMeal ((pyInt (target * (25/100)) : ℚ))
        ((calculateMacros target goal).protein_g * (25/100))
        ((calculateMacros target goal).carbs_g * (25/100))
        ((calculateMacros target goal).fat_g * (25/100)) rs c).2)
    have q3 := buildMeal_cat_equiv_self ((pyInt (target * (30/100)) : ℚ))
      ((calculateMacros target goal).protein_g * (30/100))
      ((calculateMacros target goal).carbs_g * (30/100))
      ((calculateMacros target goal).fat_g * (30/100)) rs hpass
      ((buildMeal ((pyInt (target * (35/100)) : ℚ))
        ((calculateMacros target goal).protein_g * (35/100))
        ((calculateMacros target goal).carbs_g * (35/100))
        ((calculateMacros target goal).fat_g * (35/100)) rs
        ((buildMeal ((pyInt (target * (25/100)) : ℚ))
          ((calculateMacros target goal).protein_g * (25/100))
          ((calculateMacros target goal).carbs_g * (25/100))
          ((calculateMacros target goal).fat_g * (25/100)) rs c).2)).2)
    have q4 := buildMeal_cat_equiv_self ((pyInt (target * (15/100)) : ℚ))
      ((calculateMacros target goal).protein_g * (15/100))
      ((calculateMacros target goal).carbs_g * (15/100))
      ((calculateMacros target goal).fat_g * (15/100)) rs hpass
      ((buildMeal ((pyInt (target * (30/100)) : ℚ))
        ((calculateMacros target goal).protein_g * (30/100))
        ((calculateMacros target goal).carbs_g * (30/100))
        ((calculateMacros target goal).fat_g * (30/100)) rs
        ((buildMeal ((pyInt (target * (35/100)) : ℚ))
          ((calculateMacros target goal).protein_g * (35/100))
          ((calculateMacros target goal).carbs_g * (35/100))
          ((calculateMacros target goal).fat_g * (35/100)) rs
          ((buildMeal ((pyInt (target * (25/100)) : ℚ))
            ((calculateMacros target goal).protein_g * (25/100))
            ((calculateMacros target goal).carbs_g * (25/100))
            ((calculateMacros target goal).fat_g * (25/100)) rs c).2)).2)).2)
    unfold generatePlan
    rw [if_neg hg]
    dsimp only
    by_cases h0 : target = 0
    · rw [if_pos h0]
      exact catEquiv_trans q4 (catEquiv_trans q3 (catEquiv_trans q2 q1))
    · rw [if_neg h0]
      split
      · exact catEquiv_trans q4 (catEquiv_trans q3 (catEquiv_trans q2 q1))
      · exact catEquiv_trans q4 (catEquiv_trans q3 (catEquiv_trans q2 q1))

theorem generatePlan_cat_nopass (target : ℚ) (goal : String)
    (rs : List String) (hnp : ¬ isPassthroughRestrictions rs = true)
    (c : Catalog) : (generatePlan c target goal rs).2 = c := by
  unfold generatePlan
  by_cases hg : (macroRatios goal).isNone = true
  · rw [if_pos hg]
  · rw [if_neg hg]
    dsimp only
    simp only [buildMeal_cat_nopass _ _ _ _ _ hnp]
    by_cases h0 : target = 0
    · rw [if_pos h0]
    · rw [if_neg h0]
      split <;> rfl

/-- C4, amended: `build_meal` is deterministic and free of randomness,
but it is not mutation-free — with empty restrictions it re-sorts the
shared catalog's category lists in place (`C4_counterexample`).  The
claim's consequence nevertheless holds: running `generate_plan` a second
time with identical inputs on the catalog left behind by the first run
produces exactly the same result, because the in-place sorts are
idempotent and the selections only depend on the sorted views. -/
theorem C4_regeneration_deterministic (cat : Catalog) (target : ℚ)
    (goal : String) (restrictions : List String) :
    (generatePlan (generatePlan cat target goal restrictions).2
        target goal restrictions).1
      = (generatePlan cat target goal restrictions).1 := by
  by_cases hpass : isPassthroughRestrictions restrictions = true
  · exact (generatePlan_congr target goal restrictions hpass
      (generatePlan_self_equiv target goal restrictions hpass cat)).1
  · rw [generatePlan_cat_nopass target goal restrictions hpass cat]

/-! ## Claim C2: daily calorie accuracy -/

theorem overDense_buildMeal (T mp mc mf : ℚ) (hmp : mp * (6/10) ≤ 50)
    (hmf : 0 < mf) (hT : 260 < T) :
    buildMeal T mp mc mf [] overDenseCatalog
      = ({ foods := [{ id := "pp", name := "protein isolate", portion_g := 50
                       calories := 200, protein_g := 50, carbs_g := 0
                       fat_g := 0, allergens := [] }]
           total_calories := 200, total_protein_g := 50
           total_carbs_g := 0, total_fat_g := 0 }, overDenseCatalog) := by
  have hsort : sortByDesc ltProteinKey
      (filterByRestrictions overDenseCatalog.protein [])
      = [overDenseProtein] := by decide
  have h1 := step1Protein_eval mp [] (overDenseCatalog, emptyMealState)
    overDenseProtein [] hsort
  have hport : min (max ((mp * (6/10) / overDenseProtein.protein_g) * 100) 50)
      500 = (50:ℚ) := by
    show min (max ((mp * (6/10) / (100:ℚ)) * 100) 50) 500 = (50:ℚ)
    rw [div_mul_cancel₀ _ (by norm_num : (100:ℚ) ≠ 0)]
    rw [max_eq_right hmp, min_eq_left (by norm_num : (50:ℚ) ≤ 500)]
  have hnut : calculatePortionCalories overDenseProtein 50
      = { calories := 200, protein_g := 50, carbs_g := 0, fat_g := 0 } := by
    simp only [calculatePortionCalories, overDenseProtein]
    congr 1
    · rw [pyRound_eq_self
        (show ((400:ℚ) * (50/100)) * 10 ^ 1 = ((2000:ℤ):ℚ) by norm_num)]
      norm_num
    · rw [pyRound_eq_self
        (show ((100:ℚ) * (50/100)) * 10 ^ 1 = ((500:ℤ):ℚ) by norm_num)]
      norm_num
    · rw [pyRound_eq_self
        (show ((0:ℚ) * (50/100)) * 10 ^ 1 = ((0:ℤ):ℚ) by norm_num)]
      norm_num
    · rw [pyRound_eq_self
        (show ((0:ℚ) * (50/100)) * 10 ^ 1 = ((0:ℤ):ℚ) by norm_num)]
      norm_num
  have hpf : mkPortionedFood overDenseProtein 50
      (calculatePortionCalories overDenseProtein 50)
      = { id := "pp", name := "protein isolate", portion_g := 50
          calories := 200, protein_g := 50, carbs_g := 0, fat_g := 0
          allergens := [] } := by
    rw [hnut]
    simp only [mkPortionedFood, overDenseProtein]
    rw [pyRound_eq_self (show ((50:ℚ)) * 10 ^ 0 = ((50:ℤ):ℚ) by norm_num)]
  have hadd : addFood emptyMealState (mkPortionedFood overDenseProtein 50
      (calculatePortionCalories overDenseProtein 50))
      = { foods := [{ id := "pp", name := "protein isolate", portion_g := 50
                      calories := 200, protein_g := 50, carbs_g := 0
                      fat_g := 0, allergens := [] }]
          calories := 200, protein_g := 50, carbs_g := 0, fat_g := 0 } := by
    rw [hpf]
    simp only [addFood, emptyMealState]
    norm_num
  unfold buildMeal buildSelection
  rw [h1, hport, hadd,
    if_pos (by decide : isPassthroughRestrictions ([] : List String) = true)]
  dsimp only
  rw [step2Grain_nil mc [] _ (by rfl)]
  rw [step3Vegetable_nil [] _ (by rfl),
    if_pos (by decide : isPassthroughRestrictions ([] : List String) = true)]
  dsimp only
  rw [step4Fat_nil mf [] _ (by dsimp only; linarith) (by rfl),
    if_pos (by decide : isPassthroughRestrictions ([] : List String) = true)]
  dsimp only
  unfold step5Scale
  rw [if_pos (by norm_num : (0:ℚ) < 200)]
  dsimp only
  rw [if_neg (by
    rintro ⟨-, -, hle⟩
    rw [div_le_iff₀ (by norm_num : (0:ℚ) < 200)] at hle
    linarith)]
  unfold finalizeMeal
  dsimp only
  rw [pyRound_eq_self (show ((200:ℚ)) * 10 ^ 1 = ((2000:ℤ):ℚ) by norm_num),
    pyRound_eq_self (show ((50:ℚ)) * 10 ^ 1 = ((500:ℤ):ℚ) by norm_num),
    pyRound_eq_self (show ((0:ℚ)) * 10 ^ 1 = ((0:ℤ):ℚ) by norm_num)]
  rfl

/-- Counterexample to C2: on a catalog holding only a protein-dense item,
every meal's required scale factor exceeds 1.3, so step 5 never rescales
and every meal delivers 200 kcal against per-meal targets of 500/700/600/
300 kcal.  The engine's own validation passes (50 g protein per meal,
50 g portions), so `generate_plan` reports success with 800 kcal against
the 2000 kcal target: a relative deviation of 60 % > 10 %. -/
theorem C2_counterexample :
    ∃ plan summary,
      (generatePlan overDenseCatalog 2000 "weight_loss" []).1
        = PlanResult.success plan summary ∧
      1/10 < |summary.calories - 2000| / 2000 := by
  have hmac : calculateMacros 2000 "weight_loss"
      = { protein_g := 175, carbs_g := 200, fat_g := 278/5 } := by
    unfold calculateMacros macroRatios
    rw [if_pos rfl]
    dsimp only
    congr 1
    · rw [show ((2000:ℚ) * (35/100) / 4) = 175 by norm_num]
      rw [pyRound_eq_self (show ((175:ℚ)) * 10 ^ 1 = ((1750:ℤ):ℚ) by norm_num)]
    · rw [show ((2000:ℚ) * (40/100) / 4) = 200 by norm_num]
      rw [pyRound_eq_self (show ((200:ℚ)) * 10 ^ 1 = ((2000:ℤ):ℚ) by norm_num)]
    · rw [show ((2000:ℚ) * (25/100) / 9) = 500/9 by norm_num]
      rw [pyRound_eq_high (k := 555) (by norm_num) (by norm_num) (by norm_num)]
      norm_num
  have hT1 : ((pyInt ((2000:ℚ) * (25/100)) : ℤ) : ℚ) = 500 := by
    rw [show ((2000:ℚ) * (25/100)) = ((500:ℤ):ℚ) by norm_num, pyInt_intCast]
    norm_num
  have hT2 : ((pyInt ((2000:ℚ) * (35/100)) : ℤ) : ℚ) = 700 := by
    rw [show ((2000:ℚ) * (35/100)) = ((700:ℤ):ℚ) by norm_num, pyInt_intCast]
    norm_num
  have hT3 : ((pyInt ((2000:ℚ) * (30/100)) : ℤ) : ℚ) = 600 := by
    rw [show ((2000:ℚ) * (30/100)) = ((600:ℤ):ℚ) by norm_num, pyInt_intCast]
    norm_num
  have hT4 : ((pyInt ((2000:ℚ) * (15/100)) : ℤ) : ℚ) = 300 := by
    rw [show ((2000:ℚ) * (15/100)) = ((300:ℤ):ℚ) by norm_num, pyInt_intCast]
    norm_num
  have hb := overDense_buildMeal 500 (175 * (25/100)) (200 * (25/100))
    ((278/5) * (25/100)) (by norm_num) (by norm_num) (by norm_num)
  have hl := overDense_buildMeal 700 (175 * (35/100)) (200 * (35/100))
    ((278/5) * (35/100)) (by norm_num) (by norm_num) (by norm_num)
  have hd := overDense_buildMeal 600 (175 * (30/100)) (200 * (30/100))
    ((278/5) * (30/100)) (by norm_num) (by norm_num) (by norm_num)
  have hs := overDense_buildMeal 300 (175 * (15/100)) (200 * (15/100))
    ((278/5) * (15/100)) (by norm_num) (by norm_num) (by norm_num)
  refine ⟨overDensePlan, overDenseSummary, ?_, ?_⟩
  · unfold generatePlan
    rw [if_neg (by decide :
      ¬((macroRatios "weight_loss").isNone = true))]
    dsimp only
    rw [hmac]
    dsimp only
    rw [hT1, hT2, hT3, hT4, hb, hl, hd, hs]
    dsimp only
    rw [if_neg (by norm_num : ¬((2000:ℚ) = 0))]
    rw [show ((200:ℚ) + 200 + 200 + 200) = 800 by norm_num,
      show ((50:ℚ) + 50 + 50 + 50) = 200 by norm_num,
      show ((0:ℚ) + 0 + 0 + 0) = 0 by norm_num]
    rw [pyRound_eq_self (show ((800:ℚ)) * 10 ^ 1 = ((8000:ℤ):ℚ) by norm_num),
      pyRound_eq_self (show ((200:ℚ)) * 10 ^ 1 = ((2000:ℤ):ℚ) by norm_num),
      pyRound_eq_self (show ((0:ℚ)) * 10 ^ 1 = ((0:ℤ):ℚ) by norm_num)]
    rw [if_pos (by decide)]
    rfl
  · norm_num [overDenseSummary]

/-! ## Selection invariants and the per-meal accuracy bound -/

theorem isMult_listSum {d : ℕ} {l : List ℚ} (h : ∀ q ∈ l, IsMult d q) :
    IsMult d l.sum := by
  induction l with
  | nil => exact isMult_zero d
  | cons x xs ih =>
    rw [List.sum_cons]
    exact isMult_add (h x (List.mem_cons_self x xs))
      (ih (fun q hq => h q (List.mem_cons_of_mem x hq)))

theorem selectionInv_empty : SelectionInv 0 emptyMealState :=
  ⟨rfl, fun f hf => absurd hf (by simp [emptyMealState]), by simp [emptyMealState]⟩

theorem selectionInv_mono {n m : ℕ} {s : MealState} (hnm : n ≤ m)
    (h : SelectionInv n s) : SelectionInv m s :=
  ⟨h.1, h.2.1, h.2.2.trans hnm⟩

theorem selectionInv_addFood {n : ℕ} {s : MealState} {f : Food} {portion : ℚ}
    (h : SelectionInv n s) :
    SelectionInv (n + 1) (addFood s
      (mkPortionedFood f portion (calculatePortionCalories f portion))) := by
  obtain ⟨h1, h2, h3⟩ := h
  unfold SelectionInv addFood
  dsimp only
  refine ⟨?_, ?_, ?_⟩
  · rw [List.map_append, List.sum_append, h1]
    simp
  · intro g hg
    rcases List.mem_append.mp hg with hmem | hmem
    · exact h2 g hmem
    · rw [List.mem_singleton.mp hmem]
      exact isMult_pyRound _ 1
  · rw [List.length_append]
    simpa using h3

theorem step1Protein_inv {n : ℕ} (mp : ℚ) (rs : List String)
    (cs : Catalog × MealState) (h : SelectionInv n cs.2) :
    SelectionInv (n + 1) (step1Protein mp rs cs).2 := by
  unfold step1Protein
  dsimp only
  cases hs : sortByDesc ltProteinKey (filterByRestrictions cs.1.protein rs) with
  | nil => exact selectionInv_mono (Nat.le_succ n) h
  | cons best rest => exact selectionInv_addFood h

theorem step2Grain_inv {n : ℕ} (mc : ℚ) (rs : List String)
    (cs : Catalog × MealState) (h : SelectionInv n cs.2) :
    SelectionInv (n + 1) (step2Grain mc rs cs).2 := by
  unfold step2Grain
  dsimp only
  cases hs : sortByDesc (ltPriorityFiberKey complexCarbs)
      (filterByRestrictions (cs.1.grain ++ cs.1.carb) rs) with
  | nil => exact selectionInv_mono (Nat.le_succ n) h
  | cons best rest => exact selectionInv_addFood h

theorem step3Vegetable_inv {n : ℕ} (rs : List String)
    (cs : Catalog × MealState) (h : SelectionInv n cs.2) :
    SelectionInv (n + 1) (step3Vegetable rs cs).2 := by
  unfold step3Vegetable
  dsimp only
  cases hs : sortByDesc (ltPriorityFiberKey vegPriorityIds)
      (filterByRestrictions cs.1.vegetable rs) with
  | nil => exact selectionInv_mono (Nat.le_succ n) h
  | cons best rest => exact selectionInv_addFood h

theorem step4Fat_inv {n : ℕ} (mf : ℚ) (rs : List String)
    (cs : Catalog × MealState) (h : SelectionInv n cs.2) :
    SelectionInv (n + 1) (step4Fat mf rs cs).2 := by
  unfold step4Fat
  dsimp only
  by_cases hc : cs.2.fat_g < mf * (7/10)
  · rw [if_pos hc]
    cases hs : sortByDesc ltFatPriorityKey
        (filterByRestrictions cs.1.fat rs) with
    | nil => exact selectionInv_mono (Nat.le_succ n) h
    | cons best rest => exact selectionInv_addFood h
  · rw [if_neg hc]
    exact selectionInv_mono (Nat.le_succ n) h

theorem buildSelection_inv (mp mc mf : ℚ) (rs : List String) (cat : Catalog) :
    SelectionInv 4 (buildSelection mp mc mf rs cat).2 :=
  step4Fat_inv mf rs _ (step3Vegetable_inv rs _ (step2Grain_inv mc rs _
    (step1Protein_inv mp rs _ selectionInv_empty)))

theorem scaled_sum_bound (sf : ℚ) (l : List PortionedFood) :
    |(((l.map (scaleFood sf)).map (fun f => f.calories)).sum)
        - ((l.map (fun f => f.calories)).sum) * sf|
      ≤ l.length * (1/20) := by
  induction l with
  | nil => simp
  | cons x xs ih =>
    simp only [List.map_cons, List.sum_cons, List.length_cons]
    have hsf : (scaleFood sf x).calories = pyRound (x.calories * sf) 1 := rfl
    rw [hsf]
    have hx := pyRound_sub_le (x.calories * sf) 1
    have hx20 : |pyRound (x.calories * sf) 1 - x.calories * sf| ≤ 1/20 := by
      calc |pyRound (x.calories * sf) 1 - x.calories * sf|
          ≤ 1 / (2 * 10 ^ 1) := hx
        _ = 1/20 := by norm_num
    have heq : pyRound (x.calories * sf) 1
          + ((xs.map (scaleFood sf)).map (fun f => f.calories)).sum
          - (x.calories + (xs.map (fun f => f.calories)).sum) * sf
        = (pyRound (x.calories * sf) 1 - x.calories * sf)
          + (((xs.map (scaleFood sf)).map (fun f => f.calories)).sum
             - ((xs.map (fun f => f.calories)).sum) * sf) := by ring
    rw [heq]
    calc |(pyRound (x.calories * sf) 1 - x.calories * sf)
          + (((xs.map (scaleFood sf)).map (fun f => f.calories)).sum
             - ((xs.map (fun f => f.calories)).sum) * sf)|
        ≤ |pyRound (x.calories * sf) 1 - x.calories * sf|
          + |((xs.map (scaleFood sf)).map (fun f => f.calories)).sum
             - ((xs.map (fun f => f.calories)).sum) * sf| := abs_add _ _
      _ ≤ 1/20 + xs.length * (1/20) := add_le_add hx20 ih
      _ = ((xs.length + 1 : ℕ) : ℚ) * (1/20) := by push_cast; ring

theorem mealCalories_close (T mp mc mf : ℚ) (rs : List String)
    (cat : Catalog) (hg : mealGuard T mp mc mf rs cat) (hT : 0 < T) :
    |(buildMeal T mp mc mf rs cat).1.total_calories - T|
        ≤ (3/97) * T + 1/5 ∧
    IsMult 1 (buildMeal T mp mc mf rs cat).1.total_calories := by
  obtain ⟨h0, hguard⟩ := hg
  have hinv := buildSelection_inv mp mc mf rs cat
  have hsum := hinv.1
  have hms := hinv.2.1
  have hlen := hinv.2.2
  have hne : (buildSelection mp mc mf rs cat).2.calories ≠ 0 := ne_of_gt h0
  have hmq : IsMult 1 (buildSelection mp mc mf rs cat).2.calories := by
    rw [hsum]
    apply isMult_listSum
    intro q hq
    rw [List.mem_map] at hq
    obtain ⟨g, hgm, rfl⟩ := hq
    exact hms g hgm
  have key : (buildMeal T mp mc mf rs cat).1.total_calories
      = pyRound (step5Scale T (buildSelection mp mc mf rs cat).2).calories 1 :=
    rfl
  rw [key]
  unfold step5Scale
  rw [if_pos h0]
  dsimp only
  by_cases hcond : 3/100 < |1 - T / (buildSelection mp mc mf rs cat).2.calories|
      ∧ 7/10 ≤ T / (buildSelection mp mc mf rs cat).2.calories
      ∧ T / (buildSelection mp mc mf rs cat).2.calories ≤ 13/10
  · rw [if_pos hcond]
    dsimp only
    have hm : ∀ q ∈ ((buildSelection mp mc mf rs cat).2.foods.map
        (scaleFood (T / (buildSelection mp mc mf rs cat).2.calories))).map
          (fun f => f.calories), IsMult 1 q := by
      intro q hq
      rw [List.mem_map] at hq
      obtain ⟨g, hgmem, rfl⟩ := hq
      rw [List.mem_map] at hgmem
      obtain ⟨g0, _, rfl⟩ := hgmem
      exact isMult_pyRound _ 1
    have hid := pyRound_eq_of_isMult (isMult_listSum hm)
    rw [hid]
    have hb := scaled_sum_bound
      (T / (buildSelection mp mc mf rs cat).2.calories)
      (buildSelection mp mc mf rs cat).2.foods
    rw [← hsum] at hb
    have hTc : (buildSelection mp mc mf rs cat).2.calories
        * (T / (buildSelection mp mc mf rs cat).2.calories) = T := by
      field_simp
    rw [hTc] at hb
    refine ⟨?_, isMult_listSum hm⟩
    have hlen' : ((buildSelection mp mc mf rs cat).2.foods.length : ℚ)
        * (1/20) ≤ 4 * (1/20) := by
      apply mul_le_mul_of_nonneg_right _ (by norm_num)
      exact_mod_cast hlen
    calc |(((buildSelection mp mc mf rs cat).2.foods.map
          (scaleFood (T / (buildSelection mp mc mf rs cat).2.calories))).map
            (fun f => f.calories)).sum - T|
        ≤ (buildSelection mp mc mf rs cat).2.foods.length * (1/20) := hb
      _ ≤ 4 * (1/20) := hlen'
      _ = 1/5 := by norm_num
      _ ≤ (3/97) * T + 1/5 := by
          have : 0 ≤ (3/97) * T := by positivity
          linarith
  · rw [if_neg hcond]
    have hband : |1 - T / (buildSelection mp mc mf rs cat).2.calories|
        ≤ 3/100 := by
      rcases hguard with hl | hr
      · exact hl
      · by_contra hgt
        push_neg at hgt
        exact hcond ⟨hgt, hr⟩
    rw [pyRound_eq_of_isMult hmq]
    refine ⟨?_, hmq⟩
    have h1 : (buildSelection mp mc mf rs cat).2.calories - T
        = (buildSelection mp mc mf rs cat).2.calories
          * (1 - T / (buildSelection mp mc mf rs cat).2.calories) := by
      field_simp
    have h2 : |(buildSelection mp mc mf rs cat).2.calories - T|
        = (buildSelection mp mc mf rs cat).2.calories
          * |1 - T / (buildSelection mp mc mf rs cat).2.calories| := by
      rw [h1, abs_mul, abs_of_pos h0]
    have h3 : 97/100 ≤ T / (buildSelection mp mc mf rs cat).2.calories := by
      have hb2 := (abs_le.mp hband).2
      linarith
    have h4 : (buildSelection mp mc mf rs cat).2.calories ≤ 100/97 * T := by
      rw [le_div_iff₀ h0] at h3
      linarith
    calc |(buildSelection mp mc mf rs cat).2.calories - T|
        = (buildSelection mp mc mf rs cat).2.calories
          * |1 - T / (buildSelection mp mc mf rs cat).2.calories| := h2
      _ ≤ (buildSelection mp mc mf rs cat).2.calories * (3/100) := by
          apply mul_le_mul_of_nonneg_left hband (le_of_lt h0)
      _ ≤ (100/97 * T) * (3/100) := by
          apply mul_le_mul_of_nonneg_right h4 (by norm_num)
      _ = (3/97) * T := by ring
      _ ≤ (3/97) * T + 1/5 := by linarith

theorem step4Fat_emptyPool (mf : ℚ) (rs : List String) (c : Catalog)
    (s : MealState)
    (hsort : sortByDesc ltFatPriorityKey (filterByRestrictions c.fat rs) = [])
    (hfat : c.fat = []) :
    step4Fat mf rs (c, s) = (c, s) := by
  unfold step4Fat
  dsimp only
  by_cases hc : s.fat_g < mf * (7/10)
  · rw [if_pos hc]
    simp only [hsort]
    have hcc : { c with fat := ([] : List Food) } = c := by
      rw [← hfat]
    rw [hcc, ite_self]
  · rw [if_neg hc]

theorem calibrated_buildSelection (mp mc mf : ℚ)
    (h1 : 50 ≤ 3 * mp) (h2 : 3 * mp ≤ 500)
    (h3 : 50 ≤ 2 * mc) (h4 : 2 * mc ≤ 500) (h0 : 0 ≤ mc) :
    (buildSelection mp mc mf [] calibratedCatalog).1 = calibratedCatalog ∧
    (buildSelection mp mc mf [] calibratedCatalog).2.calories
      = pyRound (6 * mp) 1 + pyRound (7 * mc) 1 := by
  have hsort1 : sortByDesc ltProteinKey
      (filterByRestrictions calibratedCatalog.protein [])
      = [calibratedProtein] := by decide
  have h1e := step1Protein_eval mp [] (calibratedCatalog, emptyMealState)
    calibratedProtein [] hsort1
  have hport1 : min (max ((mp * (6/10) / calibratedProtein.protein_g) * 100) 50)
      500 = 3 * mp := by
    show min (max ((mp * (6/10) / (20:ℚ)) * 100) 50) 500 = 3 * mp
    rw [show (mp * (6/10) / (20:ℚ)) * 100 = 3 * mp by ring]
    rw [max_eq_left h1, min_eq_left h2]
  have hnut1 : calculatePortionCalories calibratedProtein (3 * mp)
      = { calories := pyRound (6 * mp) 1, protein_g := pyRound (mp * (3/5)) 1
          carbs_g := 0, fat_g := pyRound (mp * (3/20)) 1 } := by
    simp only [calculatePortionCalories, calibratedProtein]
    congr 1
    · rw [show (200:ℚ) * (3 * mp / 100) = 6 * mp by ring]
    · rw [show (20:ℚ) * (3 * mp / 100) = mp * (3/5) by ring]
    · rw [show (0:ℚ) * (3 * mp / 100) = 0 by ring]
      exact pyRound_eq_self (show (0:ℚ) * 10 ^ 1 = ((0:ℤ):ℚ) by norm_num)
    · rw [show (5:ℚ) * (3 * mp / 100) = mp * (3/20) by ring]
  have hpf1 : mkPortionedFood calibratedProtein (3 * mp)
      (calculatePortionCalories calibratedProtein (3 * mp))
      = { id := "wp", name := "lean protein", portion_g := pyRound (3 * mp) 0
          calories := pyRound (6 * mp) 1, protein_g := pyRound (mp * (3/5)) 1
          carbs_g := 0, fat_g := pyRound (mp * (3/20)) 1, allergens := [] } := by
    rw [hnut1]
    rfl
  have hadd1 : addFood emptyMealState (mkPortionedFood calibratedProtein (3 * mp)
      (calculatePortionCalories calibratedProtein (3 * mp)))
      = { foods := [{ id := "wp", name := "lean protein"
                      portion_g := pyRound (3 * mp) 0
                      calories := pyRound (6 * mp) 1
                      protein_g := pyRound (mp * (3/5)) 1, carbs_g := 0
                      fat_g := pyRound (mp * (3/20)) 1, allergens := [] }]
          calories := pyRound (6 * mp) 1, protein_g := pyRound (mp * (3/5)) 1
          carbs_g := 0, fat_g := pyRound (mp * (3/20)) 1 } := by
    rw [hpf1]
    simp only [addFood, emptyMealState]
    norm_num
  unfold buildSelection
  rw [h1e, hport1, hadd1,
    if_pos (by decide : isPassthroughRestrictions ([] : List String) = true)]
  dsimp only
  rw [step2Grain_eval mc [] _ calibratedGrain [] (by rfl)]
  dsimp only
  have hport2 : min (max ((max (mc - 0) 0 / calibratedGrain.carbs_g) * 100) 50)
      500 = 2 * mc := by
    show min (max ((max (mc - 0) 0 / (50:ℚ)) * 100) 50) 500 = 2 * mc
    rw [sub_zero, max_eq_left h0,
      show (mc / (50:ℚ)) * 100 = 2 * mc by ring,
      max_eq_left h3, min_eq_left h4]
  rw [hport2]
  rw [step3Vegetable_nil [] _ (by rfl),
    if_pos (by decide : isPassthroughRestrictions ([] : List String) = true)]
  dsimp only
  rw [step4Fat_emptyPool mf [] _ _ (by rfl) (by rfl)]
  constructor
  · rfl
  · dsimp only [addFood, mkPortionedFood, calculatePortionCalories,
      calibratedGrain]
    rw [show (350:ℚ) * (2 * mc / 100) = 7 * mc by ring]

/-- C2 (amended): for every successful plan whose target is at least
300 kcal and whose four meals each satisfy the scaling guard — the
greedy selection produced positive calories and the required scale
factor lies either within the 3 % no-scale band or within the permitted
[0.7, 1.3] window — the reported daily calories land within 10 % of the
target.  (The literal claim, with no guard, is refuted by
`C2_counterexample`: step 5 silently skips scaling when the factor falls
outside [0.7, 1.3], and such plans can still validate and succeed.) -/
theorem C2_daily_accuracy (cat cat1 cat2 cat3 : Catalog) (target : ℚ)
    (goal : String) (restr : List String) (m : MacroTargets) (T1 T2 T3 T4 : ℚ)
    (hm : m = calculateMacros target goal)
    (hT1 : T1 = ((pyInt (target * (25/100)) : ℤ) : ℚ))
    (hT2 : T2 = ((pyInt (target * (35/100)) : ℤ) : ℚ))
    (hT3 : T3 = ((pyInt (target * (30/100)) : ℤ) : ℚ))
    (hT4 : T4 = ((pyInt (target * (15/100)) : ℤ) : ℚ))
    (hc1 : cat1 = (buildMeal T1 (m.protein_g * (25/100)) (m.carbs_g * (25/100))
      (m.fat_g * (25/100)) restr cat).2)
    (hc2 : cat2 = (buildMeal T2 (m.protein_g * (35/100)) (m.carbs_g * (35/100))
      (m.fat_g * (35/100)) restr cat1).2)
    (hc3 : cat3 = (buildMeal T3 (m.protein_g * (30/100)) (m.carbs_g * (30/100))
      (m.fat_g * (30/100)) restr cat2).2)
    (htarget : 300 ≤ target)
    (hg1 : mealGuard T1 (m.protein_g * (25/100)) (m.carbs_g * (25/100))
      (m.fat_g * (25/100)) restr cat)
    (hg2 : mealGuard T2 (m.protein_g * (35/100)) (m.carbs_g * (35/100))
      (m.fat_g * (35/100)) restr cat1)
    (hg3 : mealGuard T3 (m.protein_g * (30/100)) (m.carbs_g * (30/100))
      (m.fat_g * (30/100)) restr cat2)
    (hg4 : mealGuard T4 (m.protein_g * (15/100)) (m.carbs_g * (15/100))
      (m.fat_g * (15/100)) restr cat3) :
    match (generatePlan cat target goal restr).1 with
    | .success _ summary => |summary.calories - target| / target ≤ 1/10
    | .error => True := by
  subst hm hT1 hT2 hT3 hT4 hc1 hc2 hc3
  have hq1 : (0:ℚ) ≤ target * (25/100) := by linarith
  have hq2 : (0:ℚ) ≤ target * (35/100) := by linarith
  have hq3 : (0:ℚ) ≤ target * (30/100) := by linarith
  have hq4 : (0:ℚ) ≤ target * (15/100) := by linarith
  have hub1 := pyInt_le (target * (25/100)) hq1
  have hub2 := pyInt_le (target * (35/100)) hq2
  have hub3 := pyInt_le (target * (30/100)) hq3
  have hub4 := pyInt_le (target * (15/100)) hq4
  have hlb1 := lt_pyInt_add_one (target * (25/100)) hq1
  have hlb2 := lt_pyInt_add_one (target * (35/100)) hq2
  have hlb3 := lt_pyInt_add_one (target * (30/100)) hq3
  have hlb4 := lt_pyInt_add_one (target * (15/100)) hq4
  have hpos1 : (0:ℚ) < ((pyInt (target * (25/100)) : ℤ) : ℚ) := by linarith
  have hpos2 : (0:ℚ) < ((pyInt (target * (35/100)) : ℤ) : ℚ) := by linarith
  have hpos3 : (0:ℚ) < ((pyInt (target * (30/100)) : ℤ) : ℚ) := by linarith
  have hpos4 : (0:ℚ) < ((pyInt (target * (15/100)) : ℤ) : ℚ) := by linarith
  obtain ⟨hb1, hM1⟩ := mealCalories_close _ _ _ _ _ _ hg1 hpos1
  obtain ⟨hb2, hM2⟩ := mealCalories_close _ _ _ _ _ _ hg2 hpos2
  obtain ⟨hb3, hM3⟩ := mealCalories_close _ _ _ _ _ _ hg3 hpos3
  obtain ⟨hb4, hM4⟩ := mealCalories_close _ _ _ _ _ _ hg4 hpos4
  cases hres : (generatePlan cat target goal restr).1 with
  | error => trivial
  | success plan summary =>
    unfold generatePlan at hres
    by_cases hmr : (macroRatios goal).isNone = true
    · rw [if_pos hmr] at hres
      simp at hres
    · rw [if_neg hmr] at hres
      dsimp only at hres
      rw [if_neg (show ¬ target = 0 by
        intro h0
        rw [h0] at htarget
        norm_num at htarget)] at hres
      split at hres
      · dsimp only at hres
        injection hres with hpl hsum
        subst hsum
        dsimp only
        have hMsum := isMult_add (isMult_add (isMult_add hM1 hM2) hM3) hM4
        rw [pyRound_eq_of_isMult hMsum]
        rw [div_le_iff₀ (show (0:ℚ) < target by linarith)]
        obtain ⟨e1l, e1r⟩ := abs_le.mp hb1
        obtain ⟨e2l, e2r⟩ := abs_le.mp hb2
        obtain ⟨e3l, e3r⟩ := abs_le.mp hb3
        obtain ⟨e4l, e4r⟩ := abs_le.mp hb4
        rw [abs_le]
        constructor
        · linarith
        · linarith
      · simp at hres

theorem C2_daily_accuracy_witness :
    match (generatePlan calibratedCatalog 2000 "weight_loss" []).1 with
    | .success _ summary => |summary.calories - 2000| / 2000 ≤ 1/10
    | .error => True := by
  have hmac : calculateMacros 2000 "weight_loss"
      = { protein_g := 175, carbs_g := 200, fat_g := 278/5 } := by
    unfold calculateMacros macroRatios
    rw [if_pos rfl]
    dsimp only
    congr 1
    · rw [show ((2000:ℚ) * (35/100) / 4) = 175 by norm_num]
      rw [pyRound_eq_self (show ((175:ℚ)) * 10 ^ 1 = ((1750:ℤ):ℚ) by norm_num)]
    · rw [show ((2000:ℚ) * (40/100) / 4) = 200 by norm_num]
      rw [pyRound_eq_self (show ((200:ℚ)) * 10 ^ 1 = ((2000:ℤ):ℚ) by norm_num)]
    · rw [show ((2000:ℚ) * (25/100) / 9) = 500/9 by norm_num]
      rw [pyRound_eq_high (k := 555) (by norm_num) (by norm_num) (by norm_num)]
      norm_num
  have hT1e : ((pyInt ((2000:ℚ) * (25/100)) : ℤ) : ℚ) = 500 := by
    rw [show ((2000:ℚ) * (25/100)) = ((500:ℤ):ℚ) by norm_num, pyInt_intCast]
    norm_num
  have hT2e : ((pyInt ((2000:ℚ) * (35/100)) : ℤ) : ℚ) = 700 := by
    rw [show ((2000:ℚ) * (35/100)) = ((700:ℤ):ℚ) by norm_num, pyInt_intCast]
    norm_num
  have hT3e : ((pyInt ((2000:ℚ) * (30/100)) : ℤ) : ℚ) = 600 := by
    rw [show ((2000:ℚ) * (30/100)) = ((600:ℤ):ℚ) by norm_num, pyInt_intCast]
    norm_num
  have hT4e : ((pyInt ((2000:ℚ) * (15/100)) : ℤ) : ℚ) = 300 := by
    rw [show ((2000:ℚ) * (15/100)) = ((300:ℤ):ℚ) by norm_num, pyInt_intCast]
    norm_num
  have hs1 := calibrated_buildSelection (175 * (25/100)) (200 * (25/100))
    ((278/5) * (25/100)) (by norm_num) (by norm_num) (by norm_num)
    (by norm_num) (by norm_num)
  have hs2 := calibrated_buildSelection (175 * (35/100)) (200 * (35/100))
    ((278/5) * (35/100)) (by norm_num) (by norm_num) (by norm_num)
    (by norm_num) (by norm_num)
  have hs3 := calibrated_buildSelection (175 * (30/100)) (200 * (30/100))
    ((278/5) * (30/100)) (by norm_num) (by norm_num) (by norm_num)
    (by norm_num) (by norm_num)
  have hs4 := calibrated_buildSelection (175 * (15/100)) (200 * (15/100))
    ((278/5) * (15/100)) (by norm_num) (by norm_num) (by norm_num)
    (by norm_num) (by norm_num)
  have hc1cal : (buildSelection (175 * (25/100)) (200 * (25/100))
      ((278/5) * (25/100)) [] calibratedCatalog).2.calories = 1225/2 := by
    rw [hs1.2,
      pyRound_eq_self
        (show (6 * ((175:ℚ) * (25/100))) * 10 ^ 1 = ((2625:ℤ):ℚ) by norm_num),
      pyRound_eq_self
        (show (7 * ((200:ℚ) * (25/100))) * 10 ^ 1 = ((3500:ℤ):ℚ) by norm_num)]
    norm_num
  have hc2cal : (buildSelection (175 * (35/100)) (200 * (35/100))
      ((278/5) * (35/100)) [] calibratedCatalog).2.calories = 1715/2 := by
    rw [hs2.2,
      pyRound_eq_self
        (show (6 * ((175:ℚ) * (35/100))) * 10 ^ 1 = ((3675:ℤ):ℚ) by norm_num),
      pyRound_eq_self
        (show (7 * ((200:ℚ) * (35/100))) * 10 ^ 1 = ((4900:ℤ):ℚ) by norm_num)]
    norm_num
  have hc3cal : (buildSelection (175 * (30/100)) (200 * (30/100))
      ((278/5) * (30/100)) [] calibratedCatalog).2.calories = 735 := by
    rw [hs3.2,
      pyRound_eq_self
        (show (6 * ((175:ℚ) * (30/100))) * 10 ^ 1 = ((3150:ℤ):ℚ) by norm_num),
      pyRound_eq_self
        (show (7 * ((200:ℚ) * (30/100))) * 10 ^ 1 = ((4200:ℤ):ℚ) by norm_num)]
    norm_num
  have hc4cal : (buildSelection (175 * (15/100)) (200 * (15/100))
      ((278/5) * (15/100)) [] calibratedCatalog).2.calories = 735/2 := by
    rw [hs4.2,
      pyRound_eq_self
        (show (6 * ((175:ℚ) * (15/100))) * 10 ^ 1 = ((1575:ℤ):ℚ) by norm_num),
      pyRound_eq_self
        (show (7 * ((200:ℚ) * (15/100))) * 10 ^ 1 = ((2100:ℤ):ℚ) by norm_num)]
    norm_num
  have hg1 : mealGuard 500 (175 * (25/100)) (200 * (25/100))
      ((278/5) * (25/100)) [] calibratedCatalog := by
    unfold mealGuard
    rw [hc1cal]
    exact ⟨by norm_num, Or.inr ⟨by norm_num, by norm_num⟩⟩
  have hg2 : mealGuard 700 (175 * (35/100)) (200 * (35/100))
      ((278/5) * (35/100)) [] calibratedCatalog := by
    unfold mealGuard
    rw [hc2cal]
    exact ⟨by norm_num, Or.inr ⟨by norm_num, by norm_num⟩⟩
  have hg3 : mealGuard 600 (175 * (30/100)) (200 * (30/100))
      ((278/5) * (30/100)) [] calibratedCatalog := by
    unfold mealGuard
    rw [hc3cal]
    exact ⟨by norm_num, Or.inr ⟨by norm_num, by norm_num⟩⟩
  have hg4 : mealGuard 300 (175 * (15/100)) (200 * (15/100))
      ((278/5) * (15/100)) [] calibratedCatalog := by
    unfold mealGuard
    rw [hc4cal]
    exact ⟨by norm_num, Or.inr ⟨by norm_num, by norm_num⟩⟩
  have hk1 : (buildMeal 500 (175 * (25/100)) (200 * (25/100))
      ((278/5) * (25/100)) [] calibratedCatalog).2 = calibratedCatalog := hs1.1
  have hk2 : (buildMeal 700 (175 * (35/100)) (200 * (35/100))
      ((278/5) * (35/100)) [] calibratedCatalog).2 = calibratedCatalog := hs2.1
  have hk3 : (buildMeal 600 (175 * (30/100)) (200 * (30/100))
      ((278/5) * (30/100)) [] calibratedCatalog).2 = calibratedCatalog := hs3.1
  exact C2_daily_accuracy calibratedCatalog calibratedCatalog calibratedCatalog
    calibratedCatalog 2000 "weight_loss" []
    { protein_g := 175, carbs_g := 200, fat_g := 278/5 } 500 700 600 300
    hmac.symm hT1e.symm hT2e.symm hT3e.symm hT4e.symm
    hk1.symm hk2.symm hk3.symm (by norm_num) hg1 hg2 hg3 hg4
